import Mathlib

/-!
Verification of the Nomad Consul service-client (reconciliation engine) and the
task-directory path computation, against a shallow embedding in Lean 4.

The embedding models the data of `command/agent/consul` (tasks, services,
checks, the fake in-memory Consul backend of `unit_test.go`) and
`client/allocdir/task_dir.go`.  Registry maps (`map[string]*...` in Go) are
modelled as association lists with insert-replacing-existing-key semantics,
matching Go map assignment and deletion.
-/

set_option autoImplicit false
set_option linter.unusedSectionVars false

namespace Nomad

section AList

variable {α β : Type} [DecidableEq α]

/-- First-match lookup in an association list (Go map read). -/
def lookupA : List (α × β) → α → Option β
  | [], _ => none
  | p :: l, a => if p.1 = a then some p.2 else lookupA l a

/-- Remove every binding of key `a` (Go `delete(m, a)`). -/
def eraseA (l : List (α × β)) (a : α) : List (α × β) :=
  l.filter (fun p => decide (p.1 ≠ a))

/-- Bind `a` to `b`, replacing any existing binding (Go `m[a] = b`). -/
def insertA (l : List (α × β)) (a : α) (b : β) : List (α × β) :=
  (a, b) :: eraseA l a

/-- Fold a batch of bindings into a map, later entries replacing earlier ones. -/
def insertAll (m : List (α × β)) (es : List (α × β)) : List (α × β) :=
  es.foldl (fun acc p => insertA acc p.1 p.2) m

/-- Delete a batch of keys from a map. -/
def eraseAll (m : List (α × β)) (ids : List α) : List (α × β) :=
  ids.foldl (fun acc a => eraseA acc a) m

/-- The keys of an association list. -/
def keysA (l : List (α × β)) : List α := l.map Prod.fst

/-- A map whose keys appear at most once, the invariant every Go map enjoys. -/
@[reducible] def NodupKeys (l : List (α × β)) : Prop := (keysA l).Nodup

@[simp] theorem lookupA_nil (a : α) : lookupA ([] : List (α × β)) a = none := rfl

@[simp] theorem lookupA_cons (p : α × β) (l : List (α × β)) (a : α) :
    lookupA (p :: l) a = if p.1 = a then some p.2 else lookupA l a := rfl

@[simp] theorem insertAll_nil (m : List (α × β)) : insertAll m [] = m := rfl

@[simp] theorem insertAll_cons (m : List (α × β)) (p : α × β) (es : List (α × β)) :
    insertAll m (p :: es) = insertAll (insertA m p.1 p.2) es := rfl

@[simp] theorem eraseAll_nil (m : List (α × β)) : eraseAll m [] = m := rfl

@[simp] theorem eraseAll_cons (m : List (α × β)) (a : α) (ids : List α) :
    eraseAll m (a :: ids) = eraseAll (eraseA m a) ids := rfl

theorem lookupA_eraseA (l : List (α × β)) (a b : α) :
    lookupA (eraseA l a) b = if b = a then none else lookupA l b := by
  induction l with
  | nil => simp [eraseA]
  | cons p l ih =>
    by_cases hpa : p.1 = a
    · rw [show eraseA (p :: l) a = eraseA l a from by
        simp [eraseA, List.filter_cons, hpa]]
      rw [ih]
      by_cases hba : b = a
      · simp [hba]
      · have hpb : ¬ p.1 = b := by rw [hpa]; exact fun h => hba h.symm
        simp [hba, hpb]
    · rw [show eraseA (p :: l) a = p :: eraseA l a from by
        simp [eraseA, List.filter_cons, hpa]]
      by_cases hpb : p.1 = b
      · have hba : ¬ b = a := by rw [← hpb]; exact hpa
        simp [hpb, hba]
      · simp [hpb, ih]

theorem lookupA_insertA (l : List (α × β)) (a : α) (b : β) (c : α) :
    lookupA (insertA l a b) c = if a = c then some b else lookupA l c := by
  by_cases hac : a = c
  · simp [insertA, hac]
  · have hca : ¬ c = a := fun h => hac h.symm
    simp [insertA, hac, lookupA_eraseA, hca]

theorem lookupA_eraseAll (m : List (α × β)) (ids : List α) (a : α) :
    lookupA (eraseAll m ids) a = if a ∈ ids then none else lookupA m a := by
  induction ids generalizing m with
  | nil => simp
  | cons i ids ih =>
    rw [eraseAll_cons, ih, lookupA_eraseA]
    by_cases hai : a = i
    · simp [hai]
    · simp [hai, List.mem_cons]

theorem lookupA_mem {l : List (α × β)} {a : α} {b : β} (h : lookupA l a = some b) :
    (a, b) ∈ l := by
  induction l with
  | nil => simp at h
  | cons p l ih =>
    by_cases hpa : p.1 = a
    · rw [lookupA_cons, if_pos hpa] at h
      have hb : p.2 = b := Option.some.inj h
      exact List.mem_cons.mpr (Or.inl (by rw [← hpa, ← hb]))
    · rw [lookupA_cons, if_neg hpa] at h
      exact List.mem_cons_of_mem _ (ih h)

theorem lookupA_isSome_of_mem {l : List (α × β)} {a : α} {b : β} (h : (a, b) ∈ l) :
    (lookupA l a).isSome = true := by
  induction l with
  | nil => simp at h
  | cons p l ih =>
    rcases List.mem_cons.mp h with h | h
    · simp [← h]
    · by_cases hpa : p.1 = a
      · simp [hpa]
      · simp [hpa, ih h]

theorem lookupA_none_iff {l : List (α × β)} {a : α} :
    lookupA l a = none ↔ a ∉ keysA l := by
  induction l with
  | nil => simp [keysA]
  | cons p l ih =>
    by_cases hpa : p.1 = a
    · simp [hpa, keysA]
    · have : ¬ a = p.1 := fun h => hpa h.symm
      simp [hpa, keysA, this] at *
      exact ih

theorem lookupA_of_mem_nodup {l : List (α × β)} (hn : NodupKeys l) {a : α} {b : β}
    (h : (a, b) ∈ l) : lookupA l a = some b := by
  induction l with
  | nil => simp at h
  | cons p l ih =>
    have hn' : NodupKeys l := (List.nodup_cons.mp hn).2
    rcases List.mem_cons.mp h with h | h
    · simp [← h]
    · have hpa : ¬ p.1 = a := by
        intro hpa
        have : a ∈ keysA l := List.mem_map.mpr ⟨(a, b), h, rfl⟩
        exact (List.nodup_cons.mp hn).1 (by rw [hpa] at *; exact this)
      simp [hpa]
      exact ih hn' h

theorem mem_insertA {p : α × β} {l : List (α × β)} {a : α} {b : β}
    (h : p ∈ insertA l a b) : p = (a, b) ∨ p ∈ l := by
  rcases List.mem_cons.mp h with h | h
  · exact Or.inl h
  · exact Or.inr (List.mem_of_mem_filter h)

theorem mem_insertAll {p : α × β} {m es : List (α × β)} (h : p ∈ insertAll m es) :
    p ∈ m ∨ p ∈ es := by
  induction es generalizing m with
  | nil => exact Or.inl h
  | cons e es ih =>
    rcases ih (by simpa using h) with h | h
    · rcases mem_insertA h with h | h
      · right; simp [h]
      · exact Or.inl h
    · right; exact List.mem_cons_of_mem _ h

theorem lookupA_insertAll_isSome_of_base {m es : List (α × β)} {a : α}
    (h : (lookupA m a).isSome = true) : (lookupA (insertAll m es) a).isSome = true := by
  induction es generalizing m with
  | nil => exact h
  | cons e es ih =>
    refine ih ?_
    rw [lookupA_insertA]
    by_cases hea : e.1 = a <;> simp [hea, h]

theorem lookupA_insertAll_isSome_of_mem {m es : List (α × β)} {a : α} {b : β}
    (h : (a, b) ∈ es) : (lookupA (insertAll m es) a).isSome = true := by
  induction es generalizing m with
  | nil => simp at h
  | cons e es ih =>
    rcases List.mem_cons.mp h with h | h
    · rw [insertAll_cons]
      refine lookupA_insertAll_isSome_of_base ?_
      rw [lookupA_insertA, if_pos (by rw [← h])]
      rfl
    · rw [insertAll_cons]
      exact ih h

theorem lookupA_insertAll_of_not_mem {m es : List (α × β)} {a : α}
    (h : ∀ b : β, (a, b) ∉ es) : lookupA (insertAll m es) a = lookupA m a := by
  induction es generalizing m with
  | nil => rfl
  | cons e es ih =>
    have he : e.1 ≠ a := by
      intro hea
      exact h e.2 (by simp [← hea])
    rw [insertAll_cons, ih (fun b hb => h b (List.mem_cons_of_mem _ hb)),
      lookupA_insertA, if_neg he]

theorem lookupA_insertAll_of_uniq {m es : List (α × β)} {a : α} {b : β}
    (hmem : (a, b) ∈ es) (huniq : ∀ c : β, (a, c) ∈ es → c = b) :
    lookupA (insertAll m es) a = some b := by
  induction es generalizing m with
  | nil => simp at hmem
  | cons e es ih =>
    by_cases hes : ∃ c : β, (a, c) ∈ es
    · rcases hes with ⟨c, hc⟩
      have hcb : c = b := huniq c (List.mem_cons_of_mem _ hc)
      subst hcb
      exact ih hc (fun d hd => huniq d (List.mem_cons_of_mem _ hd))
    · push_neg at hes
      have he : e = (a, b) := by
        rcases List.mem_cons.mp hmem with h | h
        · exact h.symm
        · exact absurd h (hes b)
      rw [insertAll_cons, lookupA_insertAll_of_not_mem hes, he, lookupA_insertA, if_pos rfl]

theorem nodupKeys_nil : NodupKeys ([] : List (α × β)) := List.nodup_nil

theorem keysA_sublist_of_filter (l : List (α × β)) (p : α × β → Bool) :
    List.Sublist (keysA (l.filter p)) (keysA l) :=
  List.Sublist.map Prod.fst (List.filter_sublist l)

theorem nodupKeys_eraseA {l : List (α × β)} (h : NodupKeys l) (a : α) :
    NodupKeys (eraseA l a) :=
  List.Sublist.nodup (keysA_sublist_of_filter l _) h

theorem nodupKeys_insertA {l : List (α × β)} (h : NodupKeys l) (a : α) (b : β) :
    NodupKeys (insertA l a b) := by
  refine List.nodup_cons.mpr ⟨?_, nodupKeys_eraseA h a⟩
  intro hmem
  rcases List.mem_map.mp hmem with ⟨p, hp, hpa⟩
  have := List.of_mem_filter hp
  simp at this
  exact this hpa

theorem nodupKeys_insertAll {m : List (α × β)} (h : NodupKeys m) (es : List (α × β)) :
    NodupKeys (insertAll m es) := by
  induction es generalizing m with
  | nil => exact h
  | cons e es ih => exact ih (nodupKeys_insertA h e.1 e.2)

theorem nodupKeys_eraseAll {m : List (α × β)} (h : NodupKeys m) (ids : List α) :
    NodupKeys (eraseAll m ids) := by
  induction ids generalizing m with
  | nil => exact h
  | cons i ids ih => exact ih (nodupKeys_eraseA h i)

end AList

/-! ### Data model: tasks, services and checks (`nomad/structs`, as used by the
unit tests).  `Task.networks` flattens `Task.Resources.Networks`. -/

structure Port where
  label : String
  value : Nat
deriving DecidableEq

structure NetworkResource where
  dynamicPorts : List Port
deriving DecidableEq

structure ServiceCheck where
  name : String
  ctype : String
  command : String
  protocol : String
  path : String
  portLabel : String
  interval : Nat
  timeout : Nat
  initialStatus : String
  tlsSkipVerify : Bool
deriving DecidableEq

structure Service where
  name : String
  portLabel : String
  tags : List String
  checks : List ServiceCheck
deriving DecidableEq

structure Task where
  name : String
  networks : List NetworkResource
  services : List Service
deriving DecidableEq

/-- Modelled from the spec: the implementation file of the consul
`ServiceClient` (`command/agent/consul/client.go`) is not among the sources,
only its unit tests.  Per §3 a ServiceID is a stable content-derived hash of
`(AllocationID, TaskName, Service.Name, Service.Tags as an ordered sequence)`;
it is modelled as that tuple itself, i.e. as a perfect hash.  Changing the tag
sequence changes the ServiceID; changing the resolved port does not. -/
structure ServiceID where
  allocID : String
  taskName : String
  serviceName : String
  tags : List String
deriving DecidableEq

/-- Modelled from the spec: a CheckID is a stable content-derived hash of the
owning ServiceID and the check definition.  §3 describes the hash as covering
the fully-resolved target expression; the unit tests (`TestConsul_ChangePorts`)
pin down that it instead covers the check's declared fields — in particular the
PortLabel text — since the `c3` check must change identity although its
resolved URL is unchanged.  It is modelled as the pair of the ServiceID and the
declared check, i.e. as a perfect hash of the declared fields. -/
structure CheckID where
  serviceID : ServiceID
  check : ServiceCheck
deriving DecidableEq

/-- The service registration payload sent to the registry
(`api.AgentServiceRegistration`: Name, Tags, Port, Address; the ID is carried
as the map key). -/
structure AgentServiceRegistration where
  name : String
  tags : List String
  port : Nat
  address : String
deriving DecidableEq

/-- The check registration payload sent to the registry
(`api.AgentCheckRegistration` with its embedded `AgentServiceCheck`: the
fields the unit tests inspect — Name, ServiceID, TCP, HTTP, Status,
TLSSkipVerify — plus the check type). -/
structure AgentCheckRegistration where
  name : String
  serviceID : ServiceID
  ctype : String
  tcp : String
  http : String
  status : String
  tlsSkipVerify : Bool
deriving DecidableEq

/-! ### The fake in-memory Consul backend (`fakeConsul` in `unit_test.go`). -/

/-- The fake registry: maps of registered services and checks, plus the
per-check TTL-update counters (`checkTTLs`). -/
structure fakeConsul where
  services : List (ServiceID × AgentServiceRegistration)
  checks : List (CheckID × AgentCheckRegistration)
  checkTTLs : List (CheckID × Nat)
deriving DecidableEq

/-- `newFakeConsul` of the unit tests: everything empty. -/
def newFakeConsul : fakeConsul :=
  { services := [], checks := [], checkTTLs := [] }

/-- `fakeConsul.ServiceRegister`: upsert the service under its ID. -/
def ServiceRegister (fc : fakeConsul) (id : ServiceID)
    (reg : AgentServiceRegistration) : fakeConsul :=
  { fc with services := insertA fc.services id reg }

/-- `fakeConsul.ServiceDeregister`: delete the service map entry. -/
def ServiceDeregister (fc : fakeConsul) (id : ServiceID) : fakeConsul :=
  { fc with services := eraseA fc.services id }

/-- `fakeConsul.CheckRegister`: upsert the check under its ID. -/
def CheckRegister (fc : fakeConsul) (id : CheckID)
    (reg : AgentCheckRegistration) : fakeConsul :=
  { fc with checks := insertA fc.checks id reg }

/-- `fakeConsul.CheckDeregister`: delete the check map entry and its TTL
counter (`unit_test.go` lines 175–181). -/
def CheckDeregister (fc : fakeConsul) (id : CheckID) : fakeConsul :=
  { fc with checks := eraseA fc.checks id, checkTTLs := eraseA fc.checkTTLs id }

/-- `fakeConsul.UpdateTTL` (`unit_test.go` lines 197–208): on an unknown check
ID, return an error and leave the registry untouched; otherwise flip the
stored check's Status to `"passing"` (regardless of the `status` argument) and
increment exactly that check's TTL counter.  The Go method returns only an
error and mutates the receiver; modelled as an `(error?, new state)` pair. -/
def UpdateTTL (fc : fakeConsul) (id : CheckID) (_output _status : String) :
    Option String × fakeConsul :=
  match lookupA fc.checks id with
  | none => (some "unknown check id", fc)
  | some check =>
      (none,
        { fc with
          checks := insertA fc.checks id { check with status := "passing" }
          checkTTLs := insertA fc.checkTTLs id ((lookupA fc.checkTTLs id).getD 0 + 1) })

/-! ### Identity and payload construction (modelled from the spec, §3/§4.2). -/

/-- Resolve a port label through the task's network resource mapping. -/
def resolvePort (t : Task) (label : String) : Option Nat :=
  ((t.networks.map (fun n => n.dynamicPorts)).flatten.find?
    (fun p => decide (p.label = label))).map (fun p => p.value)

/-- The port a service registers: its PortLabel resolved at registration time. -/
def servicePort (t : Task) (s : Service) : Nat :=
  (resolvePort t s.portLabel).getD 0

/-- The ServiceID of a service declared by a task of an allocation. -/
def serviceIDOf (allocID taskName : String) (s : Service) : ServiceID :=
  { allocID := allocID, taskName := taskName, serviceName := s.name, tags := s.tags }

/-- The service registration payload: name, tags, and the resolved port.  The
test network carries no address, so the registered address is empty. -/
def serviceRegOf (t : Task) (s : Service) : AgentServiceRegistration :=
  { name := s.name, tags := s.tags, port := servicePort t s, address := "" }

/-- A check resolves its own PortLabel when set, otherwise it inherits the
owning service's PortLabel. -/
def checkPortLabel (s : Service) (c : ServiceCheck) : String :=
  if c.portLabel = "" then s.portLabel else c.portLabel

/-- The port a check's target uses after resolution. -/
def checkPort (t : Task) (s : Service) (c : ServiceCheck) : Nat :=
  (resolvePort t (checkPortLabel s c)).getD 0

/-- Modelled from the spec: the check registration payload built by the missing
`createCheckReg`.  A `tcp` check targets `host:port` and an `http`/`https`
check targets `protocol://host:port/path` (protocol defaulting to `http`), as
the unit tests observe with an empty host; a `script` check registers as a
TTL-style check with no network target. -/
def checkRegOf (t : Task) (s : Service) (c : ServiceCheck) (sid : ServiceID) :
    AgentCheckRegistration :=
  { name := c.name
    serviceID := sid
    ctype := c.ctype
    tcp := if c.ctype = "tcp" then ":" ++ toString (checkPort t s c) else ""
    http :=
      if c.ctype = "http" ∨ c.ctype = "https" then
        (if c.protocol = "" then "http" else c.protocol)
          ++ "://:" ++ toString (checkPort t s c) ++ c.path
      else ""
    status := c.initialStatus
    tlsSkipVerify := c.tlsSkipVerify }

/-- Modelled from the spec (§4.4/§4.5): with the TLS-skip-verify capability
flag false, an `http`/`https` check declaring `TLSSkipVerify=true` is silently
dropped at registration time. -/
def keepCheck (canUseTLS : Bool) (c : ServiceCheck) : Bool :=
  if c.tlsSkipVerify = true ∧ canUseTLS = false ∧ (c.ctype = "http" ∨ c.ctype = "https")
  then false else true

/-- All service registrations derived from a task. -/
def taskServiceRegs (allocID : String) (t : Task) :
    List (ServiceID × AgentServiceRegistration) :=
  t.services.map (fun s => (serviceIDOf allocID t.name s, serviceRegOf t s))

/-- The check registrations of one service of a task (capability-filtered). -/
def serviceCheckRegs (allocID : String) (t : Task) (canUseTLS : Bool) (s : Service) :
    List (CheckID × AgentCheckRegistration) :=
  (s.checks.filter (keepCheck canUseTLS)).map
    (fun c =>
      ({ serviceID := serviceIDOf allocID t.name s, check := c },
        checkRegOf t s c (serviceIDOf allocID t.name s)))

/-- All check registrations derived from a task (capability-filtered). -/
def taskCheckRegs (allocID : String) (t : Task) (canUseTLS : Bool) :
    List (CheckID × AgentCheckRegistration) :=
  (t.services.map (serviceCheckRegs allocID t canUseTLS)).flatten

/-- Every ServiceID derived from a task. -/
def taskServiceIDs (allocID : String) (t : Task) : List ServiceID :=
  t.services.map (serviceIDOf allocID t.name)

/-- Every CheckID derived from a task (identity derivation is independent of
the capability filter). -/
def taskCheckIDs (allocID : String) (t : Task) : List CheckID :=
  (t.services.map (fun s =>
    s.checks.map (fun c => ({ serviceID := serviceIDOf allocID t.name s, check := c } : CheckID)))).flatten

/-! ### The ServiceClient (modelled from the spec, §4.2–§4.6). -/

/-- One batch of staged operations (`operations` in the implementation):
registrations and deregistrations for services and checks. -/
structure operations where
  regServices : List (ServiceID × AgentServiceRegistration)
  regChecks : List (CheckID × AgentCheckRegistration)
  deregServices : List ServiceID
  deregChecks : List CheckID
deriving DecidableEq

/-- Modelled from the spec: the `ServiceClient` state.  `opCh` is the bounded
operation queue (a FIFO of batches), `services`/`checks` are the pending
desired state written only by `merge`, `canUseTLSSkipVerify` the capability
flag passed at construction and `shutdownWait` the shutdown deadline. -/
structure ServiceClient where
  canUseTLSSkipVerify : Bool
  shutdownWait : Nat
  opCh : List operations
  services : List (ServiceID × AgentServiceRegistration)
  checks : List (CheckID × AgentCheckRegistration)
deriving DecidableEq

/-- `NewServiceClient(consulClient, canUseTLSSkipVerify, logger)`: fresh state;
the registry handle and logger are not part of the pure state, and the
shutdown deadline (defaulted in the implementation, overridden by tests) is a
parameter. -/
def NewServiceClient (canUseTLS : Bool) (wait : Nat) : ServiceClient :=
  { canUseTLSSkipVerify := canUseTLS, shutdownWait := wait, opCh := [], services := [], checks := [] }

/-- The client together with the registry it talks to (the pair the test
context `testFakeCtx` holds). -/
structure World where
  sc : ServiceClient
  fc : fakeConsul
deriving DecidableEq

/-- A fresh world: a new client over an empty fake registry. -/
def emptyWorld (canUseTLS : Bool) (wait : Nat) : World :=
  { sc := NewServiceClient canUseTLS wait, fc := newFakeConsul }

/-- Stage one batch of operations on the queue (`commit`); no registry I/O. -/
def commit (w : World) (ops : operations) : World :=
  { w with sc := { w.sc with opCh := w.sc.opCh ++ [ops] } }

/-- Modelled from the spec (§4.2): `RegisterTask` computes every identity of
the task and enqueues one "add" per identity; it performs no registry I/O. -/
def RegisterTask (allocID : String) (t : Task) (w : World) : World :=
  commit w
    { regServices := taskServiceRegs allocID t
      regChecks := taskCheckRegs allocID t w.sc.canUseTLSSkipVerify
      deregServices := []
      deregChecks := [] }

/-- Modelled from the spec (§4.2): `UpdateTask` diffs the identity sets of the
old and new task: identities present in both with unchanged payload yield no
operation; identities only in the old task are removed; new identities and
identities whose payload changed are (re-)added. -/
def UpdateTask (allocID : String) (existing newTask : Task) (w : World) : World :=
  let canUseTLS := w.sc.canUseTLSSkipVerify
  let oldS := taskServiceRegs allocID existing
  let newS := taskServiceRegs allocID newTask
  let oldC := taskCheckRegs allocID existing canUseTLS
  let newC := taskCheckRegs allocID newTask canUseTLS
  commit w
    { regServices := newS.filter (fun pr => decide (lookupA oldS pr.1 ≠ some pr.2))
      regChecks := newC.filter (fun pr => decide (lookupA oldC pr.1 ≠ some pr.2))
      deregServices := (keysA oldS).filter (fun id => (lookupA newS id).isNone)
      deregChecks := (keysA oldC).filter (fun id => (lookupA newC id).isNone) }

/-- Modelled from the spec (§4.2): `RemoveTask` enqueues a "remove" for every
identity derived from the task. -/
def RemoveTask (allocID : String) (t : Task) (w : World) : World :=
  commit w
    { regServices := []
      regChecks := []
      deregServices := taskServiceIDs allocID t
      deregChecks := taskCheckIDs allocID t }

/-- Modelled from the spec (§4.3): `merge` folds one batch into the pending
state — adds upsert an identity's payload, removes delete it. -/
def merge (sc : ServiceClient) (ops : operations) : ServiceClient :=
  { sc with
    services := eraseAll (insertAll sc.services ops.regServices) ops.deregServices
    checks := eraseAll (insertAll sc.checks ops.regChecks) ops.deregChecks }

/-- Modelled from the spec (§4.4): one `sync` pass.  It snapshots the observed
state, deregisters observed services/checks absent from the pending state,
and (re-)registers every pending service/check that is missing from the
snapshot or whose observed payload differs. -/
def sync (sc : ServiceClient) (fc : fakeConsul) : fakeConsul :=
  let consulServices := fc.services
  let consulChecks := fc.checks
  let staleServices := (keysA consulServices).filter
    (fun id => (lookupA sc.services id).isNone)
  let newServices := sc.services.filter
    (fun pr => decide (lookupA consulServices pr.1 ≠ some pr.2))
  let staleChecks := (keysA consulChecks).filter
    (fun id => (lookupA sc.checks id).isNone)
  let newChecks := sc.checks.filter
    (fun pr => decide (lookupA consulChecks pr.1 ≠ some pr.2))
  let fc1 := staleServices.foldl ServiceDeregister fc
  let fc2 := newServices.foldl (fun acc pr => ServiceRegister acc pr.1 pr.2) fc1
  let fc3 := staleChecks.foldl CheckDeregister fc2
  newChecks.foldl (fun acc pr => CheckRegister acc pr.1 pr.2) fc3

/-- One iteration of the run loop as driven by the test helper `syncOnce`:
receive one staged batch (if any), merge it, and run one sync pass. -/
def syncOnce (w : World) : World :=
  match w.sc.opCh with
  | [] => w
  | ops :: rest =>
      let sc1 := merge { w.sc with opCh := rest } ops
      { sc := sc1, fc := sync sc1 w.fc }

/-! ### Shutdown (modelled from the spec, §4.5/§4.6).

The shutdown controller and the per-check script runner are part of the
missing implementation.  The concurrency of the runner is sequentialised by an
abstract duration assignment `durs : CheckID → Nat`: the externally supplied
`Exec` capability takes `durs id` time units to complete one execution of the
script check `id`.  Following §4.5, a runner executes its check once
immediately when it starts (during the merge that precedes the registration
sync, so a TTL update of an instantaneous first execution reaches the registry
before the check is registered and is rejected by `UpdateTTL`); following
§4.6(c)/(d), `Shutdown` makes sure one final execution per still-active script
check completes and its TTL update is delivered, waiting at most
`shutdownWait`; an execution still running at the deadline is abandoned
without a TTL update and `Shutdown` returns a timeout error. -/

/-- Modelled from the spec (§4.6): `Shutdown`.  For every pending script
check, wait for its final execution: if it completes within `shutdownWait`
its TTL update is delivered to the registry, otherwise it is abandoned and a
timeout error is returned. -/
def Shutdown (durs : CheckID → Nat) (w : World) : Option String × World :=
  let scripts := w.sc.checks.filter (fun pr => decide (pr.2.ctype = "script"))
  let res := scripts.foldl
    (fun acc pr =>
      if durs pr.1 ≤ w.sc.shutdownWait then
        (acc.1, (UpdateTTL acc.2 pr.1 "ok" "passing").2)
      else
        (some "timed out waiting for script checks to run", acc.2))
    ((none : Option String), w.fc)
  (res.1, { w with fc := res.2 })

/-- The shutdown scenario of the `TestConsul_Shutdown*` tests: register a task
on a fresh client, let the run loop merge and sync once, then shut down. -/
def runShutdownScenario (allocID : String) (t : Task) (wait : Nat)
    (durs : CheckID → Nat) : Option String × World :=
  Shutdown durs (syncOnce (RegisterTask allocID t (emptyWorld true wait)))

/-- Modelled from the spec (§4.5): the startup phase of the sequentialised
script runners.  Each runner starts during the merge that precedes the
registration sync and invokes the `Exec` capability immediately; every
invocation is appended to the execution log (the analogue of the test
context's `execs` channel, which ticks at each `Exec` call).  An instantaneous
execution (`durs id = 0`) also completes during this phase and delivers its
TTL update — to the given registry, which at this point does not yet hold the
check, so `UpdateTTL` rejects it; a slower execution is still in flight when
the sync pass and the shutdown that follow run, so it delivers no update
here. -/
def startupRuns (durs : CheckID → Nat)
    (scripts : List (CheckID × AgentCheckRegistration)) (fc : fakeConsul) :
    fakeConsul × List CheckID :=
  scripts.foldl
    (fun acc pr =>
      if durs pr.1 = 0 then
        ((UpdateTTL acc.1 pr.1 "ok" "passing").2, acc.2 ++ [pr.1])
      else
        (acc.1, acc.2 ++ [pr.1]))
    (fc, [])

/-- Modelled from the spec (§4.6(c)/(d)): the shutdown controller's treatment
of one script check, threading the error, the registry and the execution log.
An idle runner (its instantaneous startup execution already finished) is
forced to run the check once more — a new `Exec` invocation is logged — and
that execution's TTL update is delivered; a runner whose startup execution is
still in flight has that execution double as the final one: if it completes
within the deadline its TTL update is delivered now (no further invocation,
the runner exits once it observes the shutdown), otherwise it is abandoned
without an update and the controller reports a timeout error. -/
def shutdownStep (wait : Nat) (durs : CheckID → Nat)
    (acc : Option String × fakeConsul × List CheckID)
    (pr : CheckID × AgentCheckRegistration) :
    Option String × fakeConsul × List CheckID :=
  if durs pr.1 = 0 then
    (acc.1, (UpdateTTL acc.2.1 pr.1 "ok" "passing").2, acc.2.2 ++ [pr.1])
  else if durs pr.1 ≤ wait then
    (acc.1, (UpdateTTL acc.2.1 pr.1 "ok" "passing").2, acc.2.2)
  else
    (some "timed out waiting for script checks to run", acc.2.1, acc.2.2)

/-- Modelled from the spec: the shutdown scenario with the `Exec` invocations
recorded.  It refines `runShutdownScenario` (theorem
`runShutdownTrace_refines`): register a task on a fresh client; the run loop
receives the batch and merges it, which starts the script runners — their
startup executions run now, against the registry as it stands before the sync
pass — then the sync pass registers the task's services and checks in the
registry the startup phase left behind, and finally the client shuts down.
The result carries the shutdown error, the final world and the log of every
`Exec` invocation the scenario performed. -/
def runShutdownTrace (allocID : String) (t : Task) (wait : Nat)
    (durs : CheckID → Nat) : Option String × World × List CheckID :=
  match (RegisterTask allocID t (emptyWorld true wait)).sc.opCh with
  | [] => (none, RegisterTask allocID t (emptyWorld true wait), [])
  | ops :: rest =>
      let sc1 := merge { (RegisterTask allocID t (emptyWorld true wait)).sc with opCh := rest } ops
      let scripts := sc1.checks.filter (fun pr => decide (pr.2.ctype = "script"))
      let startup := startupRuns durs scripts (RegisterTask allocID t (emptyWorld true wait)).fc
      let res := scripts.foldl (shutdownStep wait durs)
        ((none : Option String), sync sc1 startup.1, startup.2)
      (res.1, { sc := sc1, fc := res.2.1 }, res.2.2)

/-! ### Task directories (`client/allocdir/task_dir.go`). -/

/-- Modelled from the spec: the directory-name constants live in the missing
`client/allocdir/alloc_dir.go`; their values are pinned by the field comments
of `TaskDir` (`<alloc_dir>/alloc/`, `<alloc_dir>/alloc/logs/`,
`<task_dir>/local/`, `<task_dir>/secrets/`). -/
def SharedAllocName : String := "alloc"

/-- Name of the log directory under the shared alloc directory. -/
def LogDirName : String := "logs"

/-- Name of the task-local directory under the task directory. -/
def TaskLocal : String := "local"

/-- Name of the secrets directory under the task directory. -/
def TaskSecrets : String := "secrets"

/-- Modelled from the spec: Go's `filepath.Join` on two path segments —
concatenation with a single separator, skipping empty segments.  (The Go
function also cleans the result; the directory names this repository joins are
plain names without separators or dot segments, on which the clean is the
identity.) -/
def filepathJoin (a b : String) : String :=
  if a = "" then b else if b = "" then a else a ++ "/" ++ b

/-- `TaskDir` (`task_dir.go` lines 10–34): the host paths of a task's
directory tree. -/
structure TaskDir where
  Dir : String
  SharedAllocDir : String
  SharedTaskDir : String
  LocalDir : String
  LogDir : String
  SecretsDir : String
deriving DecidableEq

/-- `NewTaskDir` (`task_dir.go` lines 38–48): pure path computation; `Build()`
is what later touches the filesystem. -/
def NewTaskDir (allocDir taskName : String) : TaskDir :=
  let taskDir := filepathJoin allocDir taskName
  { Dir := taskDir
    SharedAllocDir := filepathJoin allocDir SharedAllocName
    LogDir := filepathJoin (filepathJoin allocDir SharedAllocName) LogDirName
    SharedTaskDir := filepathJoin taskDir SharedAllocName
    LocalDir := filepathJoin taskDir TaskLocal
    SecretsDir := filepathJoin taskDir TaskSecrets }

/-! ### Test fixtures (`testTask` and the check definitions of the unit
tests), used by witnesses and counterexamples. -/

/-- `testTask` of the unit tests: dynamic ports x=1234 and y=1235 and one
service on port label x with tags tag1, tag2. -/
def testTask : Task :=
  { name := "taskname"
    networks := [{ dynamicPorts := [{ label := "x", value := 1234 }, { label := "y", value := 1235 }] }]
    services := [{ name := "taskname-service", portLabel := "x", tags := ["tag1", "tag2"], checks := [] }] }

/-- A task with exactly one service, the shape the C1/C3 scenarios quantify
over. -/
def oneServiceTask (tn : String) (nets : List NetworkResource) (sname plbl : String)
    (tags : List String) (cks : List ServiceCheck) : Task :=
  { name := tn
    networks := nets
    services := [{ name := sname, portLabel := plbl, tags := tags, checks := cks }] }

/-- The `c1` tcp check of `TestConsul_ChangePorts`. -/
def checkC1 : ServiceCheck :=
  { name := "c1", ctype := "tcp", command := "", protocol := "", path := ""
    portLabel := "x", interval := 1, timeout := 1, initialStatus := "", tlsSkipVerify := false }

/-- The `c2` script check of `TestConsul_ChangePorts`. -/
def checkC2 : ServiceCheck :=
  { name := "c2", ctype := "script", command := "", protocol := "", path := ""
    portLabel := "", interval := 9000, timeout := 1, initialStatus := "", tlsSkipVerify := false }

/-- The `c3` http check of `TestConsul_ChangePorts`, before the update. -/
def checkC3old : ServiceCheck :=
  { name := "c3", ctype := "http", command := "", protocol := "http", path := "/"
    portLabel := "y", interval := 1, timeout := 1, initialStatus := "", tlsSkipVerify := false }

/-- The `c3` http check after the update: the PortLabel was removed. -/
def checkC3new : ServiceCheck := { checkC3old with portLabel := "" }

/-- The initial task of `TestConsul_ChangePorts`. -/
def cpTask1 : Task :=
  oneServiceTask "taskname" testTask.networks "taskname-service" "x" ["tag1", "tag2"]
    [checkC1, checkC2, checkC3old]

/-- The updated task of `TestConsul_ChangePorts`: the service PortLabel moved
from x to y and c3 lost its PortLabel. -/
def cpTask2 : Task :=
  oneServiceTask "taskname" testTask.networks "taskname-service" "y" ["tag1", "tag2"]
    [checkC1, checkC2, checkC3new]

/-- The ServiceID of the test service (tags unchanged in ChangePorts). -/
def cpSid : ServiceID :=
  { allocID := "allocid", taskName := "taskname", serviceName := "taskname-service"
    tags := ["tag1", "tag2"] }

/-- The `tls-check-skip` check of `TestConsul_NoTLSSkipVerifySupport`. -/
def tlsSkipCheck : ServiceCheck :=
  { name := "tls-check-skip", ctype := "http", command := "", protocol := "https", path := "/"
    portLabel := "", interval := 0, timeout := 0, initialStatus := "", tlsSkipVerify := true }

/-- The `tls-check-noskip` sibling check. -/
def tlsNoSkipCheck : ServiceCheck :=
  { tlsSkipCheck with name := "tls-check-noskip", tlsSkipVerify := false }

/-- The service of `TestConsul_NoTLSSkipVerifySupport` carrying both checks. -/
def tlsService : Service :=
  { name := "taskname-service", portLabel := "x", tags := ["tag1", "tag2"]
    checks := [tlsSkipCheck, tlsNoSkipCheck] }

/-- The task of `TestConsul_NoTLSSkipVerifySupport`. -/
def tlsTask : Task :=
  oneServiceTask "taskname" testTask.networks "taskname-service" "x" ["tag1", "tag2"]
    [tlsSkipCheck, tlsNoSkipCheck]

/-- The `scriptcheck` of the `TestConsul_Shutdown*` tests. -/
def scriptcheck : ServiceCheck :=
  { name := "scriptcheck", ctype := "script", command := "true", protocol := "", path := ""
    portLabel := "", interval := 9000, timeout := 10, initialStatus := "warning", tlsSkipVerify := false }

/-- The task of the `TestConsul_Shutdown*` tests. -/
def sdTask : Task :=
  oneServiceTask "taskname" testTask.networks "taskname-service" "x" ["tag1", "tag2"]
    [scriptcheck]

/-- The CheckID of `scriptcheck` in the shutdown scenario. -/
def sdCid : CheckID := { serviceID := cpSid, check := scriptcheck }

/-! ### Projection lemmas for the sync pass. -/

theorem eraseA_nil {α β : Type} [DecidableEq α] (a : α) :
    eraseA ([] : List (α × β)) a = [] := rfl

theorem eraseAll_nil_left {α β : Type} [DecidableEq α] (ids : List α) :
    eraseAll ([] : List (α × β)) ids = [] := by
  induction ids with
  | nil => rfl
  | cons i ids ih => rw [eraseAll_cons, eraseA_nil]; exact ih

theorem foldl_ServiceDeregister (l : List ServiceID) (fc : fakeConsul) :
    l.foldl ServiceDeregister fc =
      { fc with services := eraseAll fc.services l } := by
  induction l generalizing fc with
  | nil => rfl
  | cons i l ih => rw [List.foldl_cons, ih]; rfl

theorem foldl_ServiceRegister (l : List (ServiceID × AgentServiceRegistration))
    (fc : fakeConsul) :
    l.foldl (fun acc pr => ServiceRegister acc pr.1 pr.2) fc =
      { fc with services := insertAll fc.services l } := by
  induction l generalizing fc with
  | nil => rfl
  | cons p l ih => rw [List.foldl_cons, ih]; rfl

theorem foldl_CheckDeregister (l : List CheckID) (fc : fakeConsul) :
    l.foldl CheckDeregister fc =
      { fc with checks := eraseAll fc.checks l, checkTTLs := eraseAll fc.checkTTLs l } := by
  induction l generalizing fc with
  | nil => rfl
  | cons i l ih => rw [List.foldl_cons, ih]; rfl

theorem foldl_CheckRegister (l : List (CheckID × AgentCheckRegistration))
    (fc : fakeConsul) :
    l.foldl (fun acc pr => CheckRegister acc pr.1 pr.2) fc =
      { fc with checks := insertAll fc.checks l } := by
  induction l generalizing fc with
  | nil => rfl
  | cons p l ih => rw [List.foldl_cons, ih]; rfl

/-- The sync pass in closed form: stale entries erased, then missing/changed
pending entries upserted; deregistering a stale check also clears its TTL
counter. -/
theorem sync_eq (sc : ServiceClient) (fc : fakeConsul) :
    sync sc fc =
      { services :=
          insertAll
            (eraseAll fc.services
              ((keysA fc.services).filter (fun id => (lookupA sc.services id).isNone)))
            (sc.services.filter (fun pr => decide (lookupA fc.services pr.1 ≠ some pr.2)))
        checks :=
          insertAll
            (eraseAll fc.checks
              ((keysA fc.checks).filter (fun id => (lookupA sc.checks id).isNone)))
            (sc.checks.filter (fun pr => decide (lookupA fc.checks pr.1 ≠ some pr.2)))
        checkTTLs :=
          eraseAll fc.checkTTLs
            ((keysA fc.checks).filter (fun id => (lookupA sc.checks id).isNone)) } := by
  show
    List.foldl (fun acc pr => CheckRegister acc pr.1 pr.2)
      (List.foldl CheckDeregister
        (List.foldl (fun acc pr => ServiceRegister acc pr.1 pr.2)
          (List.foldl ServiceDeregister fc
            ((keysA fc.services).filter (fun id => (lookupA sc.services id).isNone)))
          (sc.services.filter (fun pr => decide (lookupA fc.services pr.1 ≠ some pr.2))))
        ((keysA fc.checks).filter (fun id => (lookupA sc.checks id).isNone)))
      (sc.checks.filter (fun pr => decide (lookupA fc.checks pr.1 ≠ some pr.2))) = _
  rw [foldl_ServiceDeregister, foldl_ServiceRegister, foldl_CheckDeregister, foldl_CheckRegister]

/-- Unfolding `syncOnce` when the queue is nonempty. -/
theorem syncOnce_of_opCh (w : World) (ops : operations) (rest : List operations)
    (h : w.sc.opCh = ops :: rest) :
    syncOnce w =
      { sc := merge { w.sc with opCh := rest } ops
        fc := sync (merge { w.sc with opCh := rest } ops) w.fc } := by
  unfold syncOnce
  split
  · next heq => rw [h] at heq; cases heq
  · next o r heq =>
      rw [h] at heq
      cases heq
      rfl

/-- A fake registry holding one registered check, for exercising `UpdateTTL`. -/
def regFix : AgentCheckRegistration :=
  { name := "scriptcheck", serviceID := cpSid, ctype := "script", tcp := "", http := ""
    status := "warning", tlsSkipVerify := false }

/-- Registry fixture with exactly the check `sdCid` registered and no TTL
counters. -/
def fcFix : fakeConsul :=
  { services := [], checks := [(sdCid, regFix)], checkTTLs := [] }

/-- A check ID that is not registered in `fcFix`. -/
def cidOther : CheckID := { serviceID := cpSid, check := checkC1 }

/-! ### Claims -/

/-- C10: `NewTaskDir(allocDir, taskName)` is a pure, deterministic path
computation: `Dir` is `allocDir` joined with `taskName`, `SharedAllocDir` is
`allocDir` joined with the shared-alloc name, `LogDir` is nested under
`SharedAllocDir`, and `SharedTaskDir`, `LocalDir`, `SecretsDir` are nested
directly under `Dir`.  The equation gives the result as a closed form of the
inputs, so equal inputs always yield an equal `TaskDir`; the Lean embedding of
`NewTaskDir` is a pure function, mirroring that the Go function performs no
filesystem calls (only `Build()` does). -/
theorem NewTaskDir_pure_paths (allocDir taskName : String) :
    NewTaskDir allocDir taskName =
      { Dir := filepathJoin allocDir taskName
        SharedAllocDir := filepathJoin allocDir SharedAllocName
        SharedTaskDir := filepathJoin (filepathJoin allocDir taskName) SharedAllocName
        LocalDir := filepathJoin (filepathJoin allocDir taskName) TaskLocal
        LogDir := filepathJoin (filepathJoin allocDir SharedAllocName) LogDirName
        SecretsDir := filepathJoin (filepathJoin allocDir taskName) TaskSecrets }
    ∧ (NewTaskDir allocDir taskName).LogDir =
        filepathJoin (NewTaskDir allocDir taskName).SharedAllocDir LogDirName
    ∧ (NewTaskDir allocDir taskName).SharedTaskDir =
        filepathJoin (NewTaskDir allocDir taskName).Dir SharedAllocName
    ∧ (NewTaskDir allocDir taskName).LocalDir =
        filepathJoin (NewTaskDir allocDir taskName).Dir TaskLocal
    ∧ (NewTaskDir allocDir taskName).SecretsDir =
        filepathJoin (NewTaskDir allocDir taskName).Dir TaskSecrets :=
  ⟨rfl, rfl, rfl, rfl, rfl⟩

/-- C9: the fake registry's `UpdateTTL(id, output, status)` errors on an
unknown check ID leaving all state unchanged; on a registered ID it returns no
error, sets that check's Status to "passing" regardless of the `status`
argument, increments exactly that check's TTL counter by one, and leaves every
other check, every other TTL counter and the services map unchanged. -/
theorem UpdateTTL_spec (fc : fakeConsul) (id : CheckID) (output status : String) :
    (lookupA fc.checks id = none →
      UpdateTTL fc id output status = (some "unknown check id", fc))
    ∧ (∀ c : AgentCheckRegistration, lookupA fc.checks id = some c →
        (UpdateTTL fc id output status).1 = none
        ∧ lookupA (UpdateTTL fc id output status).2.checks id =
            some { c with status := "passing" }
        ∧ lookupA (UpdateTTL fc id output status).2.checkTTLs id =
            some ((lookupA fc.checkTTLs id).getD 0 + 1)
        ∧ (∀ id2 : CheckID, id2 ≠ id →
            lookupA (UpdateTTL fc id output status).2.checks id2 = lookupA fc.checks id2
            ∧ lookupA (UpdateTTL fc id output status).2.checkTTLs id2 =
                lookupA fc.checkTTLs id2)
        ∧ (UpdateTTL fc id output status).2.services = fc.services) := by
  constructor
  · intro h
    unfold UpdateTTL
    rw [h]
  · intro c h
    have he : UpdateTTL fc id output status =
        (none,
          { fc with
            checks := insertA fc.checks id { c with status := "passing" }
            checkTTLs := insertA fc.checkTTLs id ((lookupA fc.checkTTLs id).getD 0 + 1) }) := by
      unfold UpdateTTL
      rw [h]
    rw [he]
    refine ⟨rfl, ?_, ?_, ?_, rfl⟩
    · rw [lookupA_insertA, if_pos rfl]
    · rw [lookupA_insertA, if_pos rfl]
    · intro id2 hne
      constructor
      · rw [lookupA_insertA, if_neg (fun hh => hne hh.symm)]
      · rw [lookupA_insertA, if_neg (fun hh => hne hh.symm)]

/-- Witness for C9 at concrete inputs: the unknown ID `cidOther` errors and
leaves `fcFix` unchanged; the registered ID `sdCid` succeeds and its TTL
counter becomes 1. -/
theorem UpdateTTL_spec_witness :
    UpdateTTL fcFix cidOther "out" "critical" = (some "unknown check id", fcFix)
    ∧ (UpdateTTL fcFix sdCid "out" "critical").1 = none
    ∧ lookupA (UpdateTTL fcFix sdCid "out" "critical").2.checkTTLs sdCid = some 1 := by
  have h1 := UpdateTTL_spec fcFix cidOther "out" "critical"
  have h2 := UpdateTTL_spec fcFix sdCid "out" "critical"
  have hreg := h2.2 regFix (by decide)
  exact ⟨h1.1 (by decide), hreg.1, hreg.2.2.1⟩

/-- C7: the task-lifecycle calls only stage operations.  For every world,
`RegisterTask`, `UpdateTask` and `RemoveTask` leave the registry (`fc`) and
even the client's pending state untouched — they only append a batch to the
operation queue — and, in the `TestConsul_RegServices` scenario, the registry
is still empty after `RegisterTask` alone while it is no longer empty after
the merge-and-sync pass runs. -/
theorem lifecycle_calls_stage_only (w : World) (a : String) (t told tnew : Task) :
    (RegisterTask a t w).fc = w.fc
    ∧ (RegisterTask a t w).sc.services = w.sc.services
    ∧ (RegisterTask a t w).sc.checks = w.sc.checks
    ∧ (UpdateTask a told tnew w).fc = w.fc
    ∧ (UpdateTask a told tnew w).sc.services = w.sc.services
    ∧ (UpdateTask a told tnew w).sc.checks = w.sc.checks
    ∧ (RemoveTask a t w).fc = w.fc
    ∧ (RemoveTask a t w).sc.services = w.sc.services
    ∧ (RemoveTask a t w).sc.checks = w.sc.checks
    ∧ (RegisterTask "allocid" testTask (emptyWorld true 6)).fc = newFakeConsul
    ∧ (syncOnce (RegisterTask "allocid" testTask (emptyWorld true 6))).fc ≠ newFakeConsul :=
  ⟨rfl, rfl, rfl, rfl, rfl, rfl, rfl, rfl, rfl, rfl, by decide⟩

/-- Witness for C7 at a concrete world: the lifecycle calls leave the
registry of a fresh world untouched. -/
theorem lifecycle_calls_stage_only_witness :
    (RegisterTask "allocid" testTask (emptyWorld true 6)).fc = (emptyWorld true 6).fc
    ∧ (RemoveTask "allocid" testTask (emptyWorld true 6)).fc = (emptyWorld true 6).fc :=
  ⟨(lifecycle_calls_stage_only (emptyWorld true 6) "allocid" testTask testTask testTask).1,
    (lifecycle_calls_stage_only (emptyWorld true 6) "allocid" testTask testTask testTask).2.2.2.2.2.2.1⟩

/-- The update scenario driven by the `TestConsul_ChangeTags` and
`TestConsul_ChangePorts` tests: register a task on a fresh world, run one
merge-and-sync pass, update to the new task, and run one more pass. -/
def updateScenario (cap : Bool) (wait : Nat) (a : String) (t1 t2 : Task) : World :=
  syncOnce (UpdateTask a t1 t2 (syncOnce (RegisterTask a t1 (emptyWorld cap wait))))

/-- C1: changing only a service's tag set and calling `UpdateTask` leaves,
after one sync pass, exactly one service in the registry; its ID differs from
the original ServiceID — the old entry is absent and the new entry present, so
the change is never an in-place update — and its Name and Tags equal the new
definition. -/
theorem tag_change_new_service_id (cap : Bool) (wait : Nat) (a tn sname plbl : String)
    (nets : List NetworkResource) (tags1 tags2 : List String) (cks : List ServiceCheck)
    (htags : tags1 ≠ tags2) :
    (updateScenario cap wait a (oneServiceTask tn nets sname plbl tags1 cks)
        (oneServiceTask tn nets sname plbl tags2 cks)).fc.services.length = 1
    ∧ lookupA (updateScenario cap wait a (oneServiceTask tn nets sname plbl tags1 cks)
          (oneServiceTask tn nets sname plbl tags2 cks)).fc.services
        (serviceIDOf a tn { name := sname, portLabel := plbl, tags := tags1, checks := cks }) = none
    ∧ ∃ reg : AgentServiceRegistration,
        lookupA (updateScenario cap wait a (oneServiceTask tn nets sname plbl tags1 cks)
            (oneServiceTask tn nets sname plbl tags2 cks)).fc.services
          (serviceIDOf a tn { name := sname, portLabel := plbl, tags := tags2, checks := cks })
          = some reg
        ∧ reg.name = sname ∧ reg.tags = tags2 := by
  have hsid : ¬ (serviceIDOf a tn { name := sname, portLabel := plbl, tags := tags1, checks := cks }
      = serviceIDOf a tn { name := sname, portLabel := plbl, tags := tags2, checks := cks }) := by
    simp [serviceIDOf]
    exact htags
  have hsid2 : ¬ (serviceIDOf a tn { name := sname, portLabel := plbl, tags := tags2, checks := cks }
      = serviceIDOf a tn { name := sname, portLabel := plbl, tags := tags1, checks := cks }) :=
    fun h => hsid h.symm
  have key : (updateScenario cap wait a (oneServiceTask tn nets sname plbl tags1 cks)
      (oneServiceTask tn nets sname plbl tags2 cks)).fc.services =
      [(serviceIDOf a tn { name := sname, portLabel := plbl, tags := tags2, checks := cks },
        serviceRegOf (oneServiceTask tn nets sname plbl tags2 cks)
          { name := sname, portLabel := plbl, tags := tags2, checks := cks })] := by
    simp [updateScenario, syncOnce, RegisterTask, UpdateTask, commit, merge, sync_eq,
      emptyWorld, NewServiceClient, newFakeConsul, oneServiceTask, taskServiceRegs,
      keysA, insertA, eraseA, List.filter_cons, lookupA_insertA, lookupA_eraseA,
      eraseAll_nil_left, hsid, hsid2]
  refine ⟨by rw [key]; rfl, ?_, ?_⟩
  · rw [key, lookupA_cons, if_neg hsid2]
    rfl
  · refine ⟨serviceRegOf (oneServiceTask tn nets sname plbl tags2 cks)
      { name := sname, portLabel := plbl, tags := tags2, checks := cks }, ?_, rfl, rfl⟩
    rw [key, lookupA_cons, if_pos rfl]

/-- Witness for C1 at the `TestConsul_ChangeTags` data: tags tag1,tag2 changed
to newtag,tag2 on the test task. -/
theorem tag_change_new_service_id_witness :
    (["tag1", "tag2"] : List String) ≠ ["newtag", "tag2"]
    ∧ ((updateScenario true 6 "allocid"
          (oneServiceTask "taskname" testTask.networks "taskname-service" "x" ["tag1", "tag2"] [])
          (oneServiceTask "taskname" testTask.networks "taskname-service" "x" ["newtag", "tag2"] [])).fc.services.length = 1
      ∧ lookupA (updateScenario true 6 "allocid"
            (oneServiceTask "taskname" testTask.networks "taskname-service" "x" ["tag1", "tag2"] [])
            (oneServiceTask "taskname" testTask.networks "taskname-service" "x" ["newtag", "tag2"] [])).fc.services
          (serviceIDOf "allocid" "taskname"
            { name := "taskname-service", portLabel := "x", tags := ["tag1", "tag2"], checks := [] }) = none
      ∧ ∃ reg : AgentServiceRegistration,
          lookupA (updateScenario true 6 "allocid"
              (oneServiceTask "taskname" testTask.networks "taskname-service" "x" ["tag1", "tag2"] [])
              (oneServiceTask "taskname" testTask.networks "taskname-service" "x" ["newtag", "tag2"] [])).fc.services
            (serviceIDOf "allocid" "taskname"
              { name := "taskname-service", portLabel := "x", tags := ["newtag", "tag2"], checks := [] })
            = some reg
          ∧ reg.name = "taskname-service" ∧ reg.tags = ["newtag", "tag2"]) :=
  ⟨by decide,
    tag_change_new_service_id true 6 "allocid" "taskname" "taskname-service" "x"
      testTask.networks ["tag1", "tag2"] ["newtag", "tag2"] [] (by decide)⟩

/-- C3: changing only a service's PortLabel so that it resolves to a different
port (tags unchanged) and calling `UpdateTask` leaves, after one sync pass,
exactly one service in the registry; its ID equals the original ServiceID and
its registered Port equals the newly resolved port value. -/
theorem port_change_same_id_new_port (cap : Bool) (wait : Nat)
    (a tn sname plbl1 plbl2 : String) (nets : List NetworkResource)
    (tags : List String) (cks : List ServiceCheck)
    (hport : servicePort (oneServiceTask tn nets sname plbl1 tags cks)
        { name := sname, portLabel := plbl1, tags := tags, checks := cks }
      ≠ servicePort (oneServiceTask tn nets sname plbl2 tags cks)
        { name := sname, portLabel := plbl2, tags := tags, checks := cks }) :
    (updateScenario cap wait a (oneServiceTask tn nets sname plbl1 tags cks)
        (oneServiceTask tn nets sname plbl2 tags cks)).fc.services.length = 1
    ∧ serviceIDOf a tn { name := sname, portLabel := plbl2, tags := tags, checks := cks }
        = serviceIDOf a tn { name := sname, portLabel := plbl1, tags := tags, checks := cks }
    ∧ ∃ reg : AgentServiceRegistration,
        lookupA (updateScenario cap wait a (oneServiceTask tn nets sname plbl1 tags cks)
            (oneServiceTask tn nets sname plbl2 tags cks)).fc.services
          (serviceIDOf a tn { name := sname, portLabel := plbl1, tags := tags, checks := cks })
          = some reg
        ∧ reg.port = servicePort (oneServiceTask tn nets sname plbl2 tags cks)
            { name := sname, portLabel := plbl2, tags := tags, checks := cks } := by
  have hreg : ¬ (serviceRegOf
      { name := tn, networks := nets,
        services := [{ name := sname, portLabel := plbl1, tags := tags, checks := cks }] }
      { name := sname, portLabel := plbl1, tags := tags, checks := cks }
    = serviceRegOf
      { name := tn, networks := nets,
        services := [{ name := sname, portLabel := plbl2, tags := tags, checks := cks }] }
      { name := sname, portLabel := plbl2, tags := tags, checks := cks }) := by
    simp [serviceRegOf]
    exact hport
  have key : (updateScenario cap wait a (oneServiceTask tn nets sname plbl1 tags cks)
      (oneServiceTask tn nets sname plbl2 tags cks)).fc.services =
      [(serviceIDOf a tn { name := sname, portLabel := plbl1, tags := tags, checks := cks },
        serviceRegOf (oneServiceTask tn nets sname plbl2 tags cks)
          { name := sname, portLabel := plbl2, tags := tags, checks := cks })] := by
    simp [updateScenario, syncOnce, RegisterTask, UpdateTask, commit, merge, sync_eq,
      emptyWorld, NewServiceClient, newFakeConsul, oneServiceTask, taskServiceRegs,
      keysA, insertA, eraseA, List.filter_cons, lookupA_insertA, lookupA_eraseA,
      eraseAll_nil_left, serviceIDOf, hreg]
  refine ⟨by rw [key]; rfl, rfl, ?_⟩
  refine ⟨serviceRegOf (oneServiceTask tn nets sname plbl2 tags cks)
    { name := sname, portLabel := plbl2, tags := tags, checks := cks }, ?_, rfl⟩
  rw [key, lookupA_cons, if_pos rfl]

/-- Witness for C3 at the `TestConsul_ChangePorts` service data: the PortLabel
moves from x (port 1234) to y (port 1235) with tags unchanged. -/
theorem port_change_same_id_new_port_witness :
    servicePort (oneServiceTask "taskname" testTask.networks "taskname-service" "x" ["tag1", "tag2"] [])
        { name := "taskname-service", portLabel := "x", tags := ["tag1", "tag2"], checks := [] }
      ≠ servicePort (oneServiceTask "taskname" testTask.networks "taskname-service" "y" ["tag1", "tag2"] [])
        { name := "taskname-service", portLabel := "y", tags := ["tag1", "tag2"], checks := [] }
    ∧ ((updateScenario true 6 "allocid"
          (oneServiceTask "taskname" testTask.networks "taskname-service" "x" ["tag1", "tag2"] [])
          (oneServiceTask "taskname" testTask.networks "taskname-service" "y" ["tag1", "tag2"] [])).fc.services.length = 1
      ∧ serviceIDOf "allocid" "taskname"
          { name := "taskname-service", portLabel := "y", tags := ["tag1", "tag2"], checks := [] }
        = serviceIDOf "allocid" "taskname"
          { name := "taskname-service", portLabel := "x", tags := ["tag1", "tag2"], checks := [] }
      ∧ ∃ reg : AgentServiceRegistration,
          lookupA (updateScenario true 6 "allocid"
              (oneServiceTask "taskname" testTask.networks "taskname-service" "x" ["tag1", "tag2"] [])
              (oneServiceTask "taskname" testTask.networks "taskname-service" "y" ["tag1", "tag2"] [])).fc.services
            (serviceIDOf "allocid" "taskname"
              { name := "taskname-service", portLabel := "x", tags := ["tag1", "tag2"], checks := [] })
            = some reg
          ∧ reg.port = servicePort
              (oneServiceTask "taskname" testTask.networks "taskname-service" "y" ["tag1", "tag2"] [])
              { name := "taskname-service", portLabel := "y", tags := ["tag1", "tag2"], checks := [] }) :=
  ⟨by decide,
    port_change_same_id_new_port true 6 "allocid" "taskname" "taskname-service" "x" "y"
      testTask.networks ["tag1", "tag2"] [] (by decide)⟩


/-- The register scenario: register a task on a fresh world and run one
merge-and-sync pass. -/
def registerScenario (cap : Bool) (wait : Nat) (a : String) (t : Task) : World :=
  syncOnce (RegisterTask a t (emptyWorld cap wait))

/-- After registering a task on a fresh world and syncing once, the registry
checks map is exactly the (capability-filtered) check registrations of the
task, folded as a map. -/
theorem registerScenario_checks (cap : Bool) (wait : Nat) (a : String) (t : Task) :
    (registerScenario cap wait a t).fc.checks =
      insertAll [] (insertAll [] (taskCheckRegs a t cap)) := by
  simp [registerScenario, syncOnce, RegisterTask, commit, merge, sync_eq,
    emptyWorld, NewServiceClient, newFakeConsul, eraseAll_nil_left, keysA]

/-- Every entry of `taskCheckRegs` comes from a kept check of a service of the
task. -/
theorem mem_taskCheckRegs {a : String} {t : Task} {cap : Bool}
    {p : CheckID × AgentCheckRegistration} (h : p ∈ taskCheckRegs a t cap) :
    ∃ s c, s ∈ t.services ∧ c ∈ s.checks ∧ keepCheck cap c = true
      ∧ p.1 = { serviceID := serviceIDOf a t.name s, check := c }
      ∧ p.2 = checkRegOf t s c (serviceIDOf a t.name s) := by
  rcases List.mem_flatten.mp h with ⟨m, hm, hpm⟩
  rcases List.mem_map.mp hm with ⟨s, hs, rfl⟩
  rcases List.mem_map.mp hpm with ⟨c, hc, rfl⟩
  exact ⟨s, c, hs, List.mem_of_mem_filter hc, List.of_mem_filter hc, rfl, rfl⟩

/-- Every kept check of a service of the task contributes an entry to
`taskCheckRegs`. -/
theorem taskCheckRegs_mem_of {a : String} {t : Task} {cap : Bool} {s : Service}
    {c : ServiceCheck} (hs : s ∈ t.services) (hc : c ∈ s.checks)
    (hk : keepCheck cap c = true) :
    (({ serviceID := serviceIDOf a t.name s, check := c } : CheckID),
      checkRegOf t s c (serviceIDOf a t.name s)) ∈ taskCheckRegs a t cap := by
  refine List.mem_flatten.mpr ⟨serviceCheckRegs a t cap s, List.mem_map.mpr ⟨s, hs, rfl⟩, ?_⟩
  exact List.mem_map.mpr ⟨c, List.mem_filter.mpr ⟨hc, hk⟩, rfl⟩

/-- C6: with the TLS-skip-verify capability flag false, an `http`/`https`
check declaring `TLSSkipVerify=true` is silently dropped before registration —
it never appears in the registry after the sync pass, and registration does
not fail (the scenario is total) — while a sibling check of the same service
without the flag is registered normally with TLSSkipVerify false. -/
theorem tls_skip_filter (wait : Nat) (a : String) (t : Task) (s : Service) (c : ServiceCheck)
    (hs : s ∈ t.services) (hc : c ∈ s.checks) :
    (c.tlsSkipVerify = true → (c.ctype = "http" ∨ c.ctype = "https") →
      lookupA (registerScenario false wait a t).fc.checks
        { serviceID := serviceIDOf a t.name s, check := c } = none)
    ∧ (c.tlsSkipVerify = false →
      ∃ reg : AgentCheckRegistration,
        lookupA (registerScenario false wait a t).fc.checks
            { serviceID := serviceIDOf a t.name s, check := c } = some reg
          ∧ reg.tlsSkipVerify = false) := by

  rw [registerScenario_checks]
  constructor
  · intro hflag htype
    cases hopt : lookupA (insertAll [] (insertAll [] (taskCheckRegs a t false)))
        { serviceID := serviceIDOf a t.name s, check := c } with
    | none => rfl
    | some reg =>
        exfalso
        have hmem := lookupA_mem hopt
        have hmem2 : (({ serviceID := serviceIDOf a t.name s, check := c } : CheckID), reg)
            ∈ taskCheckRegs a t false := by
          rcases mem_insertAll hmem with h2 | h2
          · simp at h2
          · rcases mem_insertAll h2 with h3 | h3
            · simp at h3
            · exact h3
        rcases mem_taskCheckRegs hmem2 with ⟨s2, c2, hs2, hc2, hk2, hid, hreg⟩
        have hcc : c2 = c := by
          have := hid
          simp [CheckID.mk.injEq] at this
          exact this.2.symm
        rw [hcc] at hk2
        simp [keepCheck, hflag, htype] at hk2
  · intro hflag
    have hk : keepCheck false c = true := by
      simp [keepCheck, hflag]
    have hmem := taskCheckRegs_mem_of (a := a) hs hc hk
    have h1 : (lookupA (insertAll [] (taskCheckRegs a t false))
        ({ serviceID := serviceIDOf a t.name s, check := c } : CheckID)).isSome = true :=
      lookupA_insertAll_isSome_of_mem hmem
    rcases Option.isSome_iff_exists.mp h1 with ⟨v, hv⟩
    have h2 : (lookupA (insertAll [] (insertAll [] (taskCheckRegs a t false)))
        ({ serviceID := serviceIDOf a t.name s, check := c } : CheckID)).isSome = true :=
      lookupA_insertAll_isSome_of_mem (lookupA_mem hv)
    rcases Option.isSome_iff_exists.mp h2 with ⟨reg, hreg⟩
    refine ⟨reg, hreg, ?_⟩
    have hmem3 : (({ serviceID := serviceIDOf a t.name s, check := c } : CheckID), reg)
        ∈ taskCheckRegs a t false := by
      rcases mem_insertAll (lookupA_mem hreg) with h2 | h2
      · simp at h2
      · rcases mem_insertAll h2 with h3 | h3
        · simp at h3
        · exact h3
    rcases mem_taskCheckRegs hmem3 with ⟨s2, c2, hs2, hc2, hk2, hid, hregeq⟩
    have hcc : c2 = c := by
      have := hid
      simp [CheckID.mk.injEq] at this
      exact this.2.symm
    have hregeq2 : reg = checkRegOf t s2 c2 (serviceIDOf a t.name s2) := hregeq
    rw [hregeq2]
    simp [checkRegOf, hcc, hflag]

/-- Witness for C6 at the `TestConsul_NoTLSSkipVerifySupport` data: the
`tls-check-skip` check is dropped and the `tls-check-noskip` sibling of the
same service is registered with TLSSkipVerify false. -/
theorem tls_skip_filter_witness :
    tlsService ∈ tlsTask.services
    ∧ tlsSkipCheck ∈ tlsService.checks
    ∧ tlsNoSkipCheck ∈ tlsService.checks
    ∧ tlsSkipCheck.tlsSkipVerify = true
    ∧ (tlsSkipCheck.ctype = "http" ∨ tlsSkipCheck.ctype = "https")
    ∧ tlsNoSkipCheck.tlsSkipVerify = false
    ∧ lookupA (registerScenario false 6 "allocid" tlsTask).fc.checks
        { serviceID := serviceIDOf "allocid" tlsTask.name tlsService
          check := tlsSkipCheck } = none
    ∧ ∃ reg : AgentCheckRegistration,
        lookupA (registerScenario false 6 "allocid" tlsTask).fc.checks
            { serviceID := serviceIDOf "allocid" tlsTask.name tlsService
              check := tlsNoSkipCheck } = some reg
          ∧ reg.tlsSkipVerify = false :=
  ⟨by decide, by decide, by decide, by decide, by decide, by decide,
    (tls_skip_filter 6 "allocid" tlsTask tlsService tlsSkipCheck
      (by decide) (by decide)).1 (by decide) (by decide),
    (tls_skip_filter 6 "allocid" tlsTask tlsService tlsNoSkipCheck
      (by decide) (by decide)).2 (by decide)⟩


/-- C4: if a registered script check's execution blocks longer than the
configured shutdown deadline (`shutdownWait`), `Shutdown()` returns a non-nil
error once the deadline elapses, no TTL update is recorded for the blocked
execution (the TTL counter map stays empty), and the check keeps its initial
status in the registry. -/
theorem shutdown_blocked_error (wait : Nat) (a tn sname plbl : String)
    (nets : List NetworkResource) (tags : List String) (c : ServiceCheck)
    (durs : CheckID → Nat)
    (hscript : c.ctype = "script")
    (hdur : wait < durs ⟨serviceIDOf a tn ⟨sname, plbl, tags, [c]⟩, c⟩) :
    ((runShutdownScenario a (oneServiceTask tn nets sname plbl tags [c]) wait durs).1.isSome = true)
    ∧ (runShutdownScenario a (oneServiceTask tn nets sname plbl tags [c]) wait durs).2.fc.checkTTLs = []
    ∧ ∃ reg : AgentCheckRegistration,
        lookupA (runShutdownScenario a (oneServiceTask tn nets sname plbl tags [c]) wait durs).2.fc.checks
          ⟨serviceIDOf a tn ⟨sname, plbl, tags, [c]⟩, c⟩ = some reg
        ∧ reg.status = c.initialStatus := by
  have hd2 : ¬ (durs ⟨⟨a, tn, sname, tags⟩, c⟩ ≤ wait) := Nat.not_le.mpr hdur
  have key1 : (runShutdownScenario a (oneServiceTask tn nets sname plbl tags [c]) wait durs).1
      = some "timed out waiting for script checks to run" := by
    simp [runShutdownScenario, Shutdown, syncOnce, RegisterTask, commit, merge, sync_eq,
      emptyWorld, NewServiceClient, newFakeConsul, oneServiceTask, taskServiceRegs,
      taskCheckRegs, serviceCheckRegs, keepCheck, keysA, insertA, eraseA, List.filter_cons,
      lookupA_insertA, eraseAll_nil_left, serviceIDOf, checkRegOf, hscript, hd2]
  have key2 : (runShutdownScenario a (oneServiceTask tn nets sname plbl tags [c]) wait durs).2.fc.checkTTLs = [] := by
    simp [runShutdownScenario, Shutdown, syncOnce, RegisterTask, commit, merge, sync_eq,
      emptyWorld, NewServiceClient, newFakeConsul, oneServiceTask, taskServiceRegs,
      taskCheckRegs, serviceCheckRegs, keepCheck, keysA, insertA, eraseA, List.filter_cons,
      lookupA_insertA, eraseAll_nil_left, serviceIDOf, checkRegOf, hscript, hd2]
  have key3 : lookupA (runShutdownScenario a (oneServiceTask tn nets sname plbl tags [c]) wait durs).2.fc.checks
      ⟨serviceIDOf a tn ⟨sname, plbl, tags, [c]⟩, c⟩
      = some (checkRegOf (oneServiceTask tn nets sname plbl tags [c]) ⟨sname, plbl, tags, [c]⟩ c
          (serviceIDOf a tn ⟨sname, plbl, tags, [c]⟩)) := by
    simp [runShutdownScenario, Shutdown, syncOnce, RegisterTask, commit, merge, sync_eq,
      emptyWorld, NewServiceClient, newFakeConsul, oneServiceTask, taskServiceRegs,
      taskCheckRegs, serviceCheckRegs, keepCheck, keysA, insertA, eraseA, List.filter_cons,
      lookupA_insertA, eraseAll_nil_left, serviceIDOf, checkRegOf, hscript, hd2]
  refine ⟨by rw [key1]; rfl, key2, ?_⟩
  exact ⟨checkRegOf (oneServiceTask tn nets sname plbl tags [c]) ⟨sname, plbl, tags, [c]⟩ c
      (serviceIDOf a tn ⟨sname, plbl, tags, [c]⟩), key3, rfl⟩

/-- Witness for C4 at the `TestConsul_ShutdownBlocked` data: deadline 1,
execution blocked (duration far beyond the deadline). -/
theorem shutdown_blocked_error_witness :
    scriptcheck.ctype = "script"
    ∧ (1 : Nat) < 1000000
    ∧ (((runShutdownScenario "allocid" sdTask 1 (fun _ => 1000000)).1.isSome = true)
      ∧ (runShutdownScenario "allocid" sdTask 1 (fun _ => 1000000)).2.fc.checkTTLs = []
      ∧ ∃ reg : AgentCheckRegistration,
          lookupA (runShutdownScenario "allocid" sdTask 1 (fun _ => 1000000)).2.fc.checks sdCid
            = some reg
          ∧ reg.status = scriptcheck.initialStatus) :=
  ⟨rfl, by decide,
    shutdown_blocked_error 1 "allocid" "taskname" "taskname-service" "x" testTask.networks
      ["tag1", "tag2"] scriptcheck (fun _ => 1000000) rfl (by decide)⟩

/-- Unfolding the traced shutdown scenario when the staged batch is on the
queue: the merged client, its script checks, the startup runs against the
pre-sync registry, the sync pass over the registry the startup phase left, and
the shutdown fold. -/
theorem runShutdownTrace_of_opCh (allocID : String) (t : Task) (wait : Nat)
    (durs : CheckID → Nat) (ops : operations) (rest : List operations)
    (h : (RegisterTask allocID t (emptyWorld true wait)).sc.opCh = ops :: rest) :
    runShutdownTrace allocID t wait durs =
      (let sc1 := merge { (RegisterTask allocID t (emptyWorld true wait)).sc with opCh := rest } ops
       let scripts := sc1.checks.filter (fun pr => decide (pr.2.ctype = "script"))
       let startup := startupRuns durs scripts (RegisterTask allocID t (emptyWorld true wait)).fc
       let res := scripts.foldl (shutdownStep wait durs)
         ((none : Option String), sync sc1 startup.1, startup.2)
       (res.1, { sc := sc1, fc := res.2.1 }, res.2.2)) := by
  unfold runShutdownTrace
  split
  · next heq => rw [h] at heq; cases heq
  · next o r heq =>
      rw [h] at heq
      cases heq
      rfl

/-- The startup phase leaves a registry that holds none of the script checks
unchanged: every TTL update an instantaneous startup execution delivers is
rejected by `UpdateTTL`. -/
theorem startupRuns_fc (durs : CheckID → Nat)
    (scripts : List (CheckID × AgentCheckRegistration)) (fc : fakeConsul)
    (h : ∀ pr ∈ scripts, lookupA fc.checks pr.1 = none) :
    (startupRuns durs scripts fc).1 = fc := by
  have hgen : ∀ l : List (CheckID × AgentCheckRegistration),
      (∀ pr ∈ l, lookupA fc.checks pr.1 = none) → ∀ log : List CheckID,
      (l.foldl
        (fun acc pr =>
          if durs pr.1 = 0 then
            ((UpdateTTL acc.1 pr.1 "ok" "passing").2, acc.2 ++ [pr.1])
          else
            (acc.1, acc.2 ++ [pr.1]))
        (fc, log)).1 = fc := by
    intro l
    induction l with
    | nil => intro _ log; rfl
    | cons p ps ih =>
        intro hl log
        rw [List.foldl_cons]
        have hup : (UpdateTTL fc p.1 "ok" "passing").2 = fc := by
          unfold UpdateTTL
          rw [hl p (List.mem_cons_self p ps)]
        by_cases h0 : durs p.1 = 0
        · simpa [h0, hup] using ih (fun pr hpr => hl pr (List.mem_cons_of_mem p hpr)) (log ++ [p.1])
        · simpa [h0] using ih (fun pr hpr => hl pr (List.mem_cons_of_mem p hpr)) (log ++ [p.1])
  exact hgen scripts h []

/-- The startup phase over the fresh world's empty registry leaves it
unchanged. -/
theorem startupRuns_fc_empty (durs : CheckID → Nat)
    (scripts : List (CheckID × AgentCheckRegistration)) :
    (startupRuns durs scripts newFakeConsul).1 = newFakeConsul :=
  startupRuns_fc durs scripts newFakeConsul (fun _ _ => rfl)

/-- The error and registry components of the traced shutdown fold agree with
the untraced `Shutdown` fold: the execution log is the only extra state. -/
theorem shutdownStep_foldl_agree (wait : Nat) (durs : CheckID → Nat)
    (scripts : List (CheckID × AgentCheckRegistration)) :
    ∀ (e : Option String) (fc : fakeConsul) (log : List CheckID),
      ((scripts.foldl (shutdownStep wait durs) (e, fc, log)).1,
        (scripts.foldl (shutdownStep wait durs) (e, fc, log)).2.1)
        = scripts.foldl
            (fun acc pr =>
              if durs pr.1 ≤ wait then
                (acc.1, (UpdateTTL acc.2 pr.1 "ok" "passing").2)
              else
                (some "timed out waiting for script checks to run", acc.2))
            (e, fc) := by
  induction scripts with
  | nil => intro e fc log; rfl
  | cons p ps ih =>
      intro e fc log
      rw [List.foldl_cons, List.foldl_cons]
      by_cases h0 : durs p.1 = 0
      · have hle : durs p.1 ≤ wait := by rw [h0]; exact Nat.zero_le wait
        simpa [shutdownStep, h0, hle]
          using ih e ((UpdateTTL fc p.1 "ok" "passing").2) (log ++ [p.1])
      · by_cases hle : durs p.1 ≤ wait
        · simpa [shutdownStep, h0, hle]
            using ih e ((UpdateTTL fc p.1 "ok" "passing").2) log
        · simpa [shutdownStep, h0, hle]
            using ih (some "timed out waiting for script checks to run") fc log

/-- Error component of `shutdownStep_foldl_agree`. -/
theorem shutdownStep_foldl_fst (wait : Nat) (durs : CheckID → Nat)
    (scripts : List (CheckID × AgentCheckRegistration))
    (e : Option String) (fc : fakeConsul) (log : List CheckID) :
    (scripts.foldl (shutdownStep wait durs) (e, fc, log)).1
      = (scripts.foldl
          (fun acc pr =>
            if durs pr.1 ≤ wait then
              (acc.1, (UpdateTTL acc.2 pr.1 "ok" "passing").2)
            else
              (some "timed out waiting for script checks to run", acc.2))
          (e, fc)).1 :=
  congrArg Prod.fst (shutdownStep_foldl_agree wait durs scripts e fc log)

/-- Registry component of `shutdownStep_foldl_agree`. -/
theorem shutdownStep_foldl_snd (wait : Nat) (durs : CheckID → Nat)
    (scripts : List (CheckID × AgentCheckRegistration))
    (e : Option String) (fc : fakeConsul) (log : List CheckID) :
    (scripts.foldl (shutdownStep wait durs) (e, fc, log)).2.1
      = (scripts.foldl
          (fun acc pr =>
            if durs pr.1 ≤ wait then
              (acc.1, (UpdateTTL acc.2 pr.1 "ok" "passing").2)
            else
              (some "timed out waiting for script checks to run", acc.2))
          (e, fc)).2 :=
  congrArg Prod.snd (shutdownStep_foldl_agree wait durs scripts e fc log)

/-- The traced scenario refines the untraced one: forgetting the execution log
gives exactly `runShutdownScenario`, for every task, deadline and duration
assignment — in particular the startup phase's rejected updates have no
registry effect. -/
theorem runShutdownTrace_refines (allocID : String) (t : Task) (wait : Nat)
    (durs : CheckID → Nat) :
    (runShutdownTrace allocID t wait durs).1 = (runShutdownScenario allocID t wait durs).1
    ∧ (runShutdownTrace allocID t wait durs).2.1 = (runShutdownScenario allocID t wait durs).2 := by
  rw [runShutdownTrace_of_opCh allocID t wait durs _ _ rfl]
  unfold runShutdownScenario
  rw [syncOnce_of_opCh _ _ _ rfl]
  unfold Shutdown
  dsimp only [merge, RegisterTask, commit, emptyWorld, NewServiceClient]
  rw [startupRuns_fc_empty, shutdownStep_foldl_fst, shutdownStep_foldl_snd]
  exact ⟨rfl, rfl⟩

/-- C5 (amended): for a registered script check whose executions complete
within the shutdown deadline, the check is executed at least once — the
runner's immediate startup invocation of the `Exec` capability — and
`Shutdown()` returns successfully (with a nil error) only after the check's
final execution has completed and delivered its TTL update: when the startup
execution was instantaneous the runner is idle and Shutdown forces exactly
one more execution, otherwise the still-in-flight startup execution doubles
as the final one.  Only that final execution's update is recorded by the
registry — the startup update precedes the check's registration and is
rejected — so after shutdown the TTL counter map holds exactly one entry for
the check, with value exactly 1, and the check's status is passing. -/
theorem shutdown_ok_final_ttl (wait : Nat) (a tn sname plbl : String)
    (nets : List NetworkResource) (tags : List String) (c : ServiceCheck)
    (durs : CheckID → Nat)
    (hscript : c.ctype = "script")
    (hdur : durs ⟨serviceIDOf a tn ⟨sname, plbl, tags, [c]⟩, c⟩ ≤ wait) :
    (runShutdownTrace a (oneServiceTask tn nets sname plbl tags [c]) wait durs).1 = none
    ∧ (runShutdownTrace a (oneServiceTask tn nets sname plbl tags [c]) wait durs).2.2
        = (if durs ⟨serviceIDOf a tn ⟨sname, plbl, tags, [c]⟩, c⟩ = 0 then
            [⟨serviceIDOf a tn ⟨sname, plbl, tags, [c]⟩, c⟩,
              ⟨serviceIDOf a tn ⟨sname, plbl, tags, [c]⟩, c⟩]
          else [⟨serviceIDOf a tn ⟨sname, plbl, tags, [c]⟩, c⟩])
    ∧ (runShutdownTrace a (oneServiceTask tn nets sname plbl tags [c]) wait durs).2.1.fc.checkTTLs
        = [(⟨serviceIDOf a tn ⟨sname, plbl, tags, [c]⟩, c⟩, 1)]
    ∧ ∃ reg : AgentCheckRegistration,
        lookupA (runShutdownTrace a (oneServiceTask tn nets sname plbl tags [c]) wait durs).2.1.fc.checks
          ⟨serviceIDOf a tn ⟨sname, plbl, tags, [c]⟩, c⟩ = some reg
        ∧ reg.status = "passing" := by
  have hd2 : durs ⟨⟨a, tn, sname, tags⟩, c⟩ ≤ wait := hdur
  by_cases h0 : durs ⟨⟨a, tn, sname, tags⟩, c⟩ = 0
  · have key1 : (runShutdownTrace a (oneServiceTask tn nets sname plbl tags [c]) wait durs).1
        = none := by
      simp [runShutdownTrace, startupRuns, shutdownStep, RegisterTask, commit, merge, sync_eq,
        emptyWorld, NewServiceClient, newFakeConsul, oneServiceTask, taskServiceRegs,
        taskCheckRegs, serviceCheckRegs, keepCheck, keysA, insertA, eraseA, List.filter_cons,
        lookupA_insertA, eraseAll_nil_left, serviceIDOf, checkRegOf, UpdateTTL, hscript, h0, hd2]
    have key2 : (runShutdownTrace a (oneServiceTask tn nets sname plbl tags [c]) wait durs).2.2
        = [⟨serviceIDOf a tn ⟨sname, plbl, tags, [c]⟩, c⟩,
            ⟨serviceIDOf a tn ⟨sname, plbl, tags, [c]⟩, c⟩] := by
      simp [runShutdownTrace, startupRuns, shutdownStep, RegisterTask, commit, merge, sync_eq,
        emptyWorld, NewServiceClient, newFakeConsul, oneServiceTask, taskServiceRegs,
        taskCheckRegs, serviceCheckRegs, keepCheck, keysA, insertA, eraseA, List.filter_cons,
        lookupA_insertA, eraseAll_nil_left, serviceIDOf, checkRegOf, UpdateTTL, hscript, h0, hd2]
    have key3 : (runShutdownTrace a (oneServiceTask tn nets sname plbl tags [c]) wait durs).2.1.fc.checkTTLs
        = [(⟨serviceIDOf a tn ⟨sname, plbl, tags, [c]⟩, c⟩, 1)] := by
      simp [runShutdownTrace, startupRuns, shutdownStep, RegisterTask, commit, merge, sync_eq,
        emptyWorld, NewServiceClient, newFakeConsul, oneServiceTask, taskServiceRegs,
        taskCheckRegs, serviceCheckRegs, keepCheck, keysA, insertA, eraseA, List.filter_cons,
        lookupA_insertA, eraseAll_nil_left, serviceIDOf, checkRegOf, UpdateTTL, hscript, h0, hd2]
    have key4 : lookupA (runShutdownTrace a (oneServiceTask tn nets sname plbl tags [c]) wait durs).2.1.fc.checks
        ⟨serviceIDOf a tn ⟨sname, plbl, tags, [c]⟩, c⟩
        = some { checkRegOf (oneServiceTask tn nets sname plbl tags [c]) ⟨sname, plbl, tags, [c]⟩ c
            (serviceIDOf a tn ⟨sname, plbl, tags, [c]⟩) with status := "passing" } := by
      simp [runShutdownTrace, startupRuns, shutdownStep, RegisterTask, commit, merge, sync_eq,
        emptyWorld, NewServiceClient, newFakeConsul, oneServiceTask, taskServiceRegs,
        taskCheckRegs, serviceCheckRegs, keepCheck, keysA, insertA, eraseA, List.filter_cons,
        lookupA_insertA, eraseAll_nil_left, serviceIDOf, checkRegOf, UpdateTTL, hscript, h0, hd2]
    have h0s : durs ⟨serviceIDOf a tn ⟨sname, plbl, tags, [c]⟩, c⟩ = 0 := h0
    refine ⟨key1, by rw [key2, if_pos h0s], key3, ?_⟩
    exact ⟨{ checkRegOf (oneServiceTask tn nets sname plbl tags [c]) ⟨sname, plbl, tags, [c]⟩ c
        (serviceIDOf a tn ⟨sname, plbl, tags, [c]⟩) with status := "passing" }, key4, rfl⟩
  · have key1 : (runShutdownTrace a (oneServiceTask tn nets sname plbl tags [c]) wait durs).1
        = none := by
      simp [runShutdownTrace, startupRuns, shutdownStep, RegisterTask, commit, merge, sync_eq,
        emptyWorld, NewServiceClient, newFakeConsul, oneServiceTask, taskServiceRegs,
        taskCheckRegs, serviceCheckRegs, keepCheck, keysA, insertA, eraseA, List.filter_cons,
        lookupA_insertA, eraseAll_nil_left, serviceIDOf, checkRegOf, UpdateTTL, hscript, h0, hd2]
    have key2 : (runShutdownTrace a (oneServiceTask tn nets sname plbl tags [c]) wait durs).2.2
        = [⟨serviceIDOf a tn ⟨sname, plbl, tags, [c]⟩, c⟩] := by
      simp [runShutdownTrace, startupRuns, shutdownStep, RegisterTask, commit, merge, sync_eq,
        emptyWorld, NewServiceClient, newFakeConsul, oneServiceTask, taskServiceRegs,
        taskCheckRegs, serviceCheckRegs, keepCheck, keysA, insertA, eraseA, List.filter_cons,
        lookupA_insertA, eraseAll_nil_left, serviceIDOf, checkRegOf, UpdateTTL, hscript, h0, hd2]
    have key3 : (runShutdownTrace a (oneServiceTask tn nets sname plbl tags [c]) wait durs).2.1.fc.checkTTLs
        = [(⟨serviceIDOf a tn ⟨sname, plbl, tags, [c]⟩, c⟩, 1)] := by
      simp [runShutdownTrace, startupRuns, shutdownStep, RegisterTask, commit, merge, sync_eq,
        emptyWorld, NewServiceClient, newFakeConsul, oneServiceTask, taskServiceRegs,
        taskCheckRegs, serviceCheckRegs, keepCheck, keysA, insertA, eraseA, List.filter_cons,
        lookupA_insertA, eraseAll_nil_left, serviceIDOf, checkRegOf, UpdateTTL, hscript, h0, hd2]
    have key4 : lookupA (runShutdownTrace a (oneServiceTask tn nets sname plbl tags [c]) wait durs).2.1.fc.checks
        ⟨serviceIDOf a tn ⟨sname, plbl, tags, [c]⟩, c⟩
        = some { checkRegOf (oneServiceTask tn nets sname plbl tags [c]) ⟨sname, plbl, tags, [c]⟩ c
            (serviceIDOf a tn ⟨sname, plbl, tags, [c]⟩) with status := "passing" } := by
      simp [runShutdownTrace, startupRuns, shutdownStep, RegisterTask, commit, merge, sync_eq,
        emptyWorld, NewServiceClient, newFakeConsul, oneServiceTask, taskServiceRegs,
        taskCheckRegs, serviceCheckRegs, keepCheck, keysA, insertA, eraseA, List.filter_cons,
        lookupA_insertA, eraseAll_nil_left, serviceIDOf, checkRegOf, UpdateTTL, hscript, h0, hd2]
    have h0s : ¬ durs ⟨serviceIDOf a tn ⟨sname, plbl, tags, [c]⟩, c⟩ = 0 := h0
    refine ⟨key1, by rw [key2, if_neg h0s], key3, ?_⟩
    exact ⟨{ checkRegOf (oneServiceTask tn nets sname plbl tags [c]) ⟨sname, plbl, tags, [c]⟩ c
        (serviceIDOf a tn ⟨sname, plbl, tags, [c]⟩) with status := "passing" }, key4, rfl⟩

/-- Witness for C5 at the `TestConsul_ShutdownSlow` data: deadline 3, each
execution taking 1 time unit — slow but within the deadline. -/
theorem shutdown_ok_final_ttl_witness :
    scriptcheck.ctype = "script"
    ∧ ((fun _ : CheckID => (1 : Nat))
        ⟨serviceIDOf "allocid" "taskname" ⟨"taskname-service", "x", ["tag1", "tag2"], [scriptcheck]⟩,
          scriptcheck⟩ ≤ 3)
    ∧ ((runShutdownTrace "allocid" sdTask 3 (fun _ => 1)).1 = none
      ∧ (runShutdownTrace "allocid" sdTask 3 (fun _ => 1)).2.2
          = (if (fun _ : CheckID => (1 : Nat)) sdCid = 0 then [sdCid, sdCid] else [sdCid])
      ∧ (runShutdownTrace "allocid" sdTask 3 (fun _ => 1)).2.1.fc.checkTTLs = [(sdCid, 1)]
      ∧ ∃ reg : AgentCheckRegistration,
          lookupA (runShutdownTrace "allocid" sdTask 3 (fun _ => 1)).2.1.fc.checks sdCid
            = some reg
          ∧ reg.status = "passing") :=
  ⟨rfl, by decide,
    shutdown_ok_final_ttl 3 "allocid" "taskname" "taskname-service" "x" testTask.networks
      ["tag1", "tag2"] scriptcheck (fun _ => 1) rfl (by decide)⟩

/-- Counterexample for C5 as stated: in the instantaneous successful-shutdown
scenario (the `TestConsul_ShutdownOK` timing) the script check's `Exec`
capability is invoked twice — once while running and once more at shutdown —
yet the registry's TTL counter ends at 1, not at the number of executions:
the counter does not increment by exactly one per execution, because the
running-phase update is delivered before the check is registered and
rejected. -/
theorem shutdown_ttl_counterexample :
    (runShutdownTrace "allocid" sdTask 6 (fun _ => 0)).2.2 = [sdCid, sdCid]
    ∧ (runShutdownTrace "allocid" sdTask 6 (fun _ => 0)).1 = none
    ∧ lookupA (runShutdownTrace "allocid" sdTask 6 (fun _ => 0)).2.1.fc.checkTTLs sdCid = some 1
    ∧ ¬ (lookupA (runShutdownTrace "allocid" sdTask 6 (fun _ => 0)).2.1.fc.checkTTLs sdCid
        = some (runShutdownTrace "allocid" sdTask 6 (fun _ => 0)).2.2.length) := by
  decide

/-! ### Frame property of RemoveTask (C8). -/

section C8

variable {α β : Type} [DecidableEq α] [DecidableEq β]

theorem mem_eraseAll {p : α × β} {m : List (α × β)} {ids : List α}
    (h : p ∈ eraseAll m ids) : p ∈ m := by
  induction ids generalizing m with
  | nil => exact h
  | cons i ids ih => exact List.mem_of_mem_filter (ih (by simpa using h))

theorem sync_erase_lookup (m0 obs : List (α × β)) (ids : List α)
    (hn : NodupKeys m0) (hobs : ∀ id, lookupA obs id = lookupA m0 id) (k : α) :
    lookupA
      (insertAll
        (eraseAll obs ((keysA obs).filter (fun id => (lookupA (eraseAll m0 ids) id).isNone)))
        ((eraseAll m0 ids).filter (fun pr => decide (lookupA obs pr.1 ≠ some pr.2)))) k
      = if k ∈ ids then none else lookupA obs k := by
  have hnew : (eraseAll m0 ids).filter (fun pr => decide (lookupA obs pr.1 ≠ some pr.2)) = [] := by
    refine List.filter_eq_nil_iff.mpr ?_
    intro p hp
    have hp0 : p ∈ m0 := mem_eraseAll hp
    have hl : lookupA m0 p.1 = some p.2 := lookupA_of_mem_nodup hn hp0
    simp [hobs p.1, hl]
  rw [hnew, insertAll_nil, lookupA_eraseAll]
  by_cases hk : k ∈ ids
  · rw [if_pos hk]
    by_cases hko : lookupA obs k = none
    · simp [hko]
    · have hks : k ∈ (keysA obs).filter (fun id => (lookupA (eraseAll m0 ids) id).isNone) := by
        refine List.mem_filter.mpr ⟨?_, ?_⟩
        · by_contra hmem
          exact hko (lookupA_none_iff.mpr hmem)
        · rw [lookupA_eraseAll, if_pos hk]
          rfl
      rw [if_pos hks]
  · rw [if_neg hk]
    have he : lookupA (eraseAll m0 ids) k = lookupA obs k := by
      rw [lookupA_eraseAll, if_neg hk, ← hobs]
    by_cases hks : k ∈ (keysA obs).filter (fun id => (lookupA (eraseAll m0 ids) id).isNone)
    · have hnone : (lookupA (eraseAll m0 ids) k).isNone = true := by
        have := List.of_mem_filter hks
        simpa using this
      rw [he] at hnone
      rw [if_pos hks]
      exact (Option.isNone_iff_eq_none.mp hnone).symm
    · rw [if_neg hks]
end C8

/-- C8: in a steady state (the registry's services and checks agree pointwise
with the client's pending maps), `RemoveTask(allocID, task)` followed by one
sync pass deletes exactly the service and check identities derived from that
task; every identity not derived from the task keeps exactly its previous
registry payload. -/
theorem remove_task_frame (cap : Bool) (wait : Nat) (a : String) (t : Task)
    (p0svcs : List (ServiceID × AgentServiceRegistration))
    (p0chks : List (CheckID × AgentCheckRegistration))
    (fc0 : fakeConsul)
    (hks : NodupKeys p0svcs) (hkc : NodupKeys p0chks)
    (hsvc : ∀ id, lookupA fc0.services id = lookupA p0svcs id)
    (hchk : ∀ id, lookupA fc0.checks id = lookupA p0chks id) :
    (∀ sid ∈ taskServiceIDs a t,
      lookupA (syncOnce (RemoveTask a t ⟨⟨cap, wait, [], p0svcs, p0chks⟩, fc0⟩)).fc.services sid = none)
    ∧ (∀ sid : ServiceID, sid ∉ taskServiceIDs a t →
      lookupA (syncOnce (RemoveTask a t ⟨⟨cap, wait, [], p0svcs, p0chks⟩, fc0⟩)).fc.services sid
        = lookupA fc0.services sid)
    ∧ (∀ cid ∈ taskCheckIDs a t,
      lookupA (syncOnce (RemoveTask a t ⟨⟨cap, wait, [], p0svcs, p0chks⟩, fc0⟩)).fc.checks cid = none)
    ∧ (∀ cid : CheckID, cid ∉ taskCheckIDs a t →
      lookupA (syncOnce (RemoveTask a t ⟨⟨cap, wait, [], p0svcs, p0chks⟩, fc0⟩)).fc.checks cid
        = lookupA fc0.checks cid) := by
  have hW : syncOnce (RemoveTask a t ⟨⟨cap, wait, [], p0svcs, p0chks⟩, fc0⟩)
      = ⟨⟨cap, wait, [], eraseAll p0svcs (taskServiceIDs a t), eraseAll p0chks (taskCheckIDs a t)⟩,
         sync ⟨cap, wait, [], eraseAll p0svcs (taskServiceIDs a t), eraseAll p0chks (taskCheckIDs a t)⟩ fc0⟩ := by
    rw [syncOnce_of_opCh _ _ _ rfl]
    simp [RemoveTask, commit, merge]
  refine ⟨?_, ?_, ?_, ?_⟩
  · intro sid hsid
    rw [hW]
    simp only [sync_eq]
    rw [sync_erase_lookup p0svcs fc0.services (taskServiceIDs a t) hks hsvc sid, if_pos hsid]
  · intro sid hsid
    rw [hW]
    simp only [sync_eq]
    rw [sync_erase_lookup p0svcs fc0.services (taskServiceIDs a t) hks hsvc sid, if_neg hsid]
  · intro cid hcid
    rw [hW]
    simp only [sync_eq]
    rw [sync_erase_lookup p0chks fc0.checks (taskCheckIDs a t) hkc hchk cid, if_pos hcid]
  · intro cid hcid
    rw [hW]
    simp only [sync_eq]
    rw [sync_erase_lookup p0chks fc0.checks (taskCheckIDs a t) hkc hchk cid, if_neg hcid]

/-- Pending state used by the C8 witness: the two registrations of
`TestConsul_RegServices` (the original test service and the modified
`taskname-service2`). -/
def sid2W : ServiceID :=
  ⟨"allocid", "taskname", "taskname-service2", ["tag3", "tag2"]⟩

/-- The registered payload of the original test service. -/
def reg1W : AgentServiceRegistration :=
  ⟨"taskname-service", ["tag1", "tag2"], 1234, ""⟩

/-- The registered payload of the second service. -/
def reg2W : AgentServiceRegistration :=
  ⟨"taskname-service2", ["tag3", "tag2"], 1234, ""⟩

/-- Pending services of the C8 witness world. -/
def p0W : List (ServiceID × AgentServiceRegistration) :=
  [(cpSid, reg1W), (sid2W, reg2W)]

/-- The registry of the C8 witness world, holding exactly the pending state. -/
def fc0W : fakeConsul := ⟨p0W, [], []⟩

/-- The task removed in the C8 witness (the second registration). -/
def tRem : Task :=
  oneServiceTask "taskname" testTask.networks "taskname-service2" "x" ["tag3", "tag2"] []

/-- Witness for C8: removing `tRem` deletes its service and leaves the
unrelated first registration untouched. -/
theorem remove_task_frame_witness :
    lookupA (syncOnce (RemoveTask "allocid" tRem ⟨⟨true, 6, [], p0W, []⟩, fc0W⟩)).fc.services sid2W
      = none
    ∧ lookupA (syncOnce (RemoveTask "allocid" tRem ⟨⟨true, 6, [], p0W, []⟩, fc0W⟩)).fc.services cpSid
        = lookupA fc0W.services cpSid := by
  have H := remove_task_frame true 6 "allocid" tRem p0W [] fc0W (by decide) (by decide)
    (fun id => rfl) (fun id => rfl)
  exact ⟨H.1 sid2W (by decide), H.2.1 cpSid (by decide)⟩

/-! ### Check identity under updates (C2). -/

section Converge

variable {α β : Type} [DecidableEq α] [DecidableEq β]

theorem keysA_mem_of {l : List (α × β)} {k : α} {b : β} (h : (k, b) ∈ l) : k ∈ keysA l :=
  List.mem_map.mpr ⟨(k, b), h, rfl⟩

theorem mem_keysA {l : List (α × β)} {k : α} (h : k ∈ keysA l) : ∃ b, (k, b) ∈ l := by
  rcases List.mem_map.mp h with ⟨p, hp, hpk⟩
  subst hpk
  exact ⟨p.2, hp⟩

theorem sync_converge_lookup (m0 obs : List (α × β)) (hn : NodupKeys m0) (k : α) :
    lookupA
      (insertAll
        (eraseAll obs ((keysA obs).filter (fun id => (lookupA m0 id).isNone)))
        (m0.filter (fun pr => decide (lookupA obs pr.1 ≠ some pr.2)))) k
      = lookupA m0 k := by
  cases hp : lookupA m0 k with
  | none =>
      have hnew : ∀ b : β, (k, b) ∉ m0.filter (fun pr => decide (lookupA obs pr.1 ≠ some pr.2)) := by
        intro b hb
        have hmem := List.mem_of_mem_filter hb
        have := lookupA_isSome_of_mem hmem
        simp [hp] at this
      rw [lookupA_insertAll_of_not_mem hnew, lookupA_eraseAll]
      by_cases hko : k ∈ keysA obs
      · have hks : k ∈ (keysA obs).filter (fun id => (lookupA m0 id).isNone) :=
          List.mem_filter.mpr ⟨hko, by simp [hp]⟩
        rw [if_pos hks]
      · have hobsk : lookupA obs k = none := lookupA_none_iff.mpr hko
        by_cases hks : k ∈ (keysA obs).filter (fun id => (lookupA m0 id).isNone)
        · rw [if_pos hks]
        · rw [if_neg hks, hobsk]
  | some v =>
      have hkstale : k ∉ (keysA obs).filter (fun id => (lookupA m0 id).isNone) := by
        intro hmem
        have := List.of_mem_filter hmem
        simp [hp] at this
      by_cases hof : lookupA obs k = some v
      · have hnew : ∀ b : β, (k, b) ∉ m0.filter (fun pr => decide (lookupA obs pr.1 ≠ some pr.2)) := by
          intro b hb
          have hm := List.mem_of_mem_filter hb
          have hfb := List.of_mem_filter hb
          have hlk : lookupA m0 k = some b := lookupA_of_mem_nodup hn hm
          rw [hp] at hlk
          have hbv : v = b := Option.some.inj hlk
          subst hbv
          simp [hof] at hfb
        rw [lookupA_insertAll_of_not_mem hnew, lookupA_eraseAll, if_neg hkstale, hof]
      · have hmem : (k, v) ∈ m0.filter (fun pr => decide (lookupA obs pr.1 ≠ some pr.2)) :=
          List.mem_filter.mpr ⟨lookupA_mem hp, by simp [hof]⟩
        have huniq : ∀ c : β, (k, c) ∈ m0.filter (fun pr => decide (lookupA obs pr.1 ≠ some pr.2)) → c = v := by
          intro c hc
          have := lookupA_of_mem_nodup hn (List.mem_of_mem_filter hc)
          rw [hp] at this
          exact (Option.some.inj this).symm
        rw [lookupA_insertAll_of_uniq hmem huniq]
end Converge

/-- The registry's checks map after the two-pass update scenario agrees
pointwise with the pending state the two merges produce: one sync pass
converges the registry to the pending desired state. -/
theorem updateScenario_checks_lookup (cap : Bool) (wait : Nat) (a : String)
    (t1 t2 : Task) (k : CheckID) :
    lookupA (updateScenario cap wait a t1 t2).fc.checks k
      = lookupA
          (eraseAll
            (insertAll (insertAll [] (taskCheckRegs a t1 cap))
              ((taskCheckRegs a t2 cap).filter
                (fun pr => decide (lookupA (taskCheckRegs a t1 cap) pr.1 ≠ some pr.2))))
            ((keysA (taskCheckRegs a t1 cap)).filter
              (fun id => (lookupA (taskCheckRegs a t2 cap) id).isNone))) k := by
  unfold updateScenario
  rw [syncOnce_of_opCh (RegisterTask a t1 (emptyWorld cap wait)) _ _ rfl]
  rw [syncOnce_of_opCh _ _ _ rfl]
  simp only [sync_eq]
  exact sync_converge_lookup _ _
    (nodupKeys_eraseAll
      (nodupKeys_insertAll (nodupKeys_insertAll nodupKeys_nil _) _) _) k

/-- Counterexample for C2 as stated: in the `TestConsul_ChangePorts` scenario
the `c3` check's resolved target sent to the registry is `http://:1235/` both
before and after the update (its PortLabel was removed but the service moved
to the same port y), yet its CheckID changes — the old ID is absent from the
registry after the sync pass.  A check whose resolved network target is
unchanged does not keep its CheckID. -/
theorem check_target_counterexample :
    (lookupA (syncOnce (RegisterTask "allocid" cpTask1 (emptyWorld true 6))).fc.checks
        ⟨cpSid, checkC3old⟩).map (fun r => r.http) = some "http://:1235/"
    ∧ (lookupA (updateScenario true 6 "allocid" cpTask1 cpTask2).fc.checks
        ⟨cpSid, checkC3new⟩).map (fun r => r.http) = some "http://:1235/"
    ∧ lookupA (updateScenario true 6 "allocid" cpTask1 cpTask2).fc.checks ⟨cpSid, checkC3old⟩ = none
    ∧ (⟨cpSid, checkC3old⟩ : CheckID) ≠ ⟨cpSid, checkC3new⟩ := by
  decide

/-- C2 (amended): a check's registry identity follows its declared fields.
After `UpdateTask` and one sync pass on a one-service task whose ServiceID is
unchanged, a check whose declaration appears in both the old and new task
keeps its original CheckID in the registry; a check whose declaration was
changed or removed (e.g. its PortLabel removed) loses its old CheckID even if
its resolved target is unchanged; and the changed declaration is registered
under its new CheckID. -/
theorem check_identity_by_declaration (cap : Bool) (wait : Nat)
    (a tn sname plbl1 plbl2 : String) (nets : List NetworkResource)
    (tags : List String) (cks1 cks2 : List ServiceCheck) (c : ServiceCheck)
    (hk : keepCheck cap c = true) :
    (c ∈ cks1 → c ∈ cks2 →
      (lookupA (updateScenario cap wait a (oneServiceTask tn nets sname plbl1 tags cks1)
          (oneServiceTask tn nets sname plbl2 tags cks2)).fc.checks
        ⟨serviceIDOf a tn ⟨sname, plbl1, tags, cks1⟩, c⟩).isSome = true)
    ∧ (c ∈ cks1 → c ∉ cks2 →
      lookupA (updateScenario cap wait a (oneServiceTask tn nets sname plbl1 tags cks1)
          (oneServiceTask tn nets sname plbl2 tags cks2)).fc.checks
        ⟨serviceIDOf a tn ⟨sname, plbl1, tags, cks1⟩, c⟩ = none)
    ∧ (c ∉ cks1 → c ∈ cks2 →
      (lookupA (updateScenario cap wait a (oneServiceTask tn nets sname plbl1 tags cks1)
          (oneServiceTask tn nets sname plbl2 tags cks2)).fc.checks
        ⟨serviceIDOf a tn ⟨sname, plbl1, tags, cks1⟩, c⟩).isSome = true) := by
  have mem_s1 : ({ name := sname, portLabel := plbl1, tags := tags, checks := cks1 } : Service)
      ∈ (oneServiceTask tn nets sname plbl1 tags cks1).services :=
    List.mem_singleton.mpr rfl
  have mem_s2 : ({ name := sname, portLabel := plbl2, tags := tags, checks := cks2 } : Service)
      ∈ (oneServiceTask tn nets sname plbl2 tags cks2).services :=
    List.mem_singleton.mpr rfl
  refine ⟨?_, ?_, ?_⟩
  · intro h1 h2
    rw [updateScenario_checks_lookup, lookupA_eraseAll]
    have hnotD2 : (⟨serviceIDOf a tn ⟨sname, plbl1, tags, cks1⟩, c⟩ : CheckID)
        ∉ (keysA (taskCheckRegs a (oneServiceTask tn nets sname plbl1 tags cks1) cap)).filter
          (fun id => (lookupA (taskCheckRegs a (oneServiceTask tn nets sname plbl2 tags cks2) cap) id).isNone) := by
      intro hmem
      have hpred := List.of_mem_filter hmem
      have hentry : ((⟨serviceIDOf a (oneServiceTask tn nets sname plbl2 tags cks2).name
            { name := sname, portLabel := plbl2, tags := tags, checks := cks2 }, c⟩ : CheckID),
          checkRegOf (oneServiceTask tn nets sname plbl2 tags cks2)
            { name := sname, portLabel := plbl2, tags := tags, checks := cks2 } c
            (serviceIDOf a (oneServiceTask tn nets sname plbl2 tags cks2).name
              { name := sname, portLabel := plbl2, tags := tags, checks := cks2 }))
          ∈ taskCheckRegs a (oneServiceTask tn nets sname plbl2 tags cks2) cap :=
        taskCheckRegs_mem_of mem_s2 h2 hk
      have hsome : (lookupA (taskCheckRegs a (oneServiceTask tn nets sname plbl2 tags cks2) cap)
          (⟨serviceIDOf a tn ⟨sname, plbl1, tags, cks1⟩, c⟩ : CheckID)).isSome = true :=
        lookupA_isSome_of_mem hentry
      rw [Option.isNone_iff_eq_none] at hpred
      rw [hpred] at hsome
      cases hsome
    rw [if_neg hnotD2]
    by_cases hR : ∃ b : AgentCheckRegistration,
        ((⟨serviceIDOf a tn ⟨sname, plbl1, tags, cks1⟩, c⟩ : CheckID), b)
          ∈ (taskCheckRegs a (oneServiceTask tn nets sname plbl2 tags cks2) cap).filter
            (fun pr => decide (lookupA (taskCheckRegs a (oneServiceTask tn nets sname plbl1 tags cks1) cap) pr.1 ≠ some pr.2))
    · rcases hR with ⟨b, hb⟩
      exact lookupA_insertAll_isSome_of_mem hb
    · push_neg at hR
      rw [lookupA_insertAll_of_not_mem hR]
      exact lookupA_insertAll_isSome_of_mem (taskCheckRegs_mem_of mem_s1 h1 hk)
  · intro h1 h2
    rw [updateScenario_checks_lookup, lookupA_eraseAll]
    have hnone : lookupA (taskCheckRegs a (oneServiceTask tn nets sname plbl2 tags cks2) cap)
        (⟨serviceIDOf a tn ⟨sname, plbl1, tags, cks1⟩, c⟩ : CheckID) = none := by
      refine lookupA_none_iff.mpr ?_
      intro hmem
      rcases mem_keysA hmem with ⟨b, hb⟩
      rcases mem_taskCheckRegs hb with ⟨s2, c2, hs2, hc2, hk2, hid, hreg⟩
      have hcc : c2 = c := by
        have hh := hid
        simp [CheckID.mk.injEq] at hh
        exact hh.2.symm
      have hs2eq : s2 = { name := sname, portLabel := plbl2, tags := tags, checks := cks2 } := by
        simpa [oneServiceTask] using hs2
      rw [hs2eq] at hc2
      rw [hcc] at hc2
      exact h2 hc2
    have hD2 : (⟨serviceIDOf a tn ⟨sname, plbl1, tags, cks1⟩, c⟩ : CheckID)
        ∈ (keysA (taskCheckRegs a (oneServiceTask tn nets sname plbl1 tags cks1) cap)).filter
          (fun id => (lookupA (taskCheckRegs a (oneServiceTask tn nets sname plbl2 tags cks2) cap) id).isNone) := by
      refine List.mem_filter.mpr ⟨?_, ?_⟩
      · exact keysA_mem_of (taskCheckRegs_mem_of mem_s1 h1 hk)
      · rw [hnone]
        rfl
    rw [if_pos hD2]
  · intro h1 h2
    rw [updateScenario_checks_lookup, lookupA_eraseAll]
    have holdnone : lookupA (taskCheckRegs a (oneServiceTask tn nets sname plbl1 tags cks1) cap)
        (⟨serviceIDOf a tn ⟨sname, plbl1, tags, cks1⟩, c⟩ : CheckID) = none := by
      refine lookupA_none_iff.mpr ?_
      intro hmem
      rcases mem_keysA hmem with ⟨b, hb⟩
      rcases mem_taskCheckRegs hb with ⟨s1, c1, hs1, hc1, hk1, hid, hreg⟩
      have hcc : c1 = c := by
        have hh := hid
        simp [CheckID.mk.injEq] at hh
        exact hh.2.symm
      have hs1eq : s1 = { name := sname, portLabel := plbl1, tags := tags, checks := cks1 } := by
        simpa [oneServiceTask] using hs1
      rw [hs1eq] at hc1
      rw [hcc] at hc1
      exact h1 hc1
    have hnotD2 : (⟨serviceIDOf a tn ⟨sname, plbl1, tags, cks1⟩, c⟩ : CheckID)
        ∉ (keysA (taskCheckRegs a (oneServiceTask tn nets sname plbl1 tags cks1) cap)).filter
          (fun id => (lookupA (taskCheckRegs a (oneServiceTask tn nets sname plbl2 tags cks2) cap) id).isNone) := by
      intro hmem
      exact (lookupA_none_iff.mp holdnone) (List.mem_of_mem_filter hmem)
    rw [if_neg hnotD2]
    have hmemR2 : ((⟨serviceIDOf a (oneServiceTask tn nets sname plbl2 tags cks2).name
          { name := sname, portLabel := plbl2, tags := tags, checks := cks2 }, c⟩ : CheckID),
        checkRegOf (oneServiceTask tn nets sname plbl2 tags cks2)
          { name := sname, portLabel := plbl2, tags := tags, checks := cks2 } c
          (serviceIDOf a (oneServiceTask tn nets sname plbl2 tags cks2).name
            { name := sname, portLabel := plbl2, tags := tags, checks := cks2 }))
        ∈ (taskCheckRegs a (oneServiceTask tn nets sname plbl2 tags cks2) cap).filter
          (fun pr => decide (lookupA (taskCheckRegs a (oneServiceTask tn nets sname plbl1 tags cks1) cap) pr.1 ≠ some pr.2)) := by
      refine List.mem_filter.mpr ⟨taskCheckRegs_mem_of mem_s2 h2 hk, ?_⟩
      have holdnone2 : lookupA (taskCheckRegs a (oneServiceTask tn nets sname plbl1 tags cks1) cap)
          (⟨serviceIDOf a (oneServiceTask tn nets sname plbl2 tags cks2).name
            { name := sname, portLabel := plbl2, tags := tags, checks := cks2 }, c⟩ : CheckID) = none :=
        holdnone
      simp [holdnone2]
    exact lookupA_insertAll_isSome_of_mem hmemR2

/-- Witness for C2 (amended) at the `TestConsul_ChangePorts` data: `c1` keeps
its CheckID, the old `c3` CheckID disappears, the new `c3` CheckID appears. -/
theorem check_identity_by_declaration_witness :
    keepCheck true checkC1 = true
    ∧ checkC1 ∈ [checkC1, checkC2, checkC3old]
    ∧ checkC1 ∈ [checkC1, checkC2, checkC3new]
    ∧ checkC3old ∈ [checkC1, checkC2, checkC3old]
    ∧ checkC3old ∉ [checkC1, checkC2, checkC3new]
    ∧ checkC3new ∉ [checkC1, checkC2, checkC3old]
    ∧ checkC3new ∈ [checkC1, checkC2, checkC3new]
    ∧ (lookupA (updateScenario true 6 "allocid" cpTask1 cpTask2).fc.checks
        ⟨cpSid, checkC1⟩).isSome = true
    ∧ lookupA (updateScenario true 6 "allocid" cpTask1 cpTask2).fc.checks ⟨cpSid, checkC3old⟩ = none
    ∧ (lookupA (updateScenario true 6 "allocid" cpTask1 cpTask2).fc.checks
        ⟨cpSid, checkC3new⟩).isSome = true :=
  ⟨by decide, by decide, by decide, by decide, by decide, by decide, by decide,
    (check_identity_by_declaration true 6 "allocid" "taskname" "taskname-service" "x" "y"
      testTask.networks ["tag1", "tag2"] [checkC1, checkC2, checkC3old] [checkC1, checkC2, checkC3new]
      checkC1 (by decide)).1 (by decide) (by decide),
    (check_identity_by_declaration true 6 "allocid" "taskname" "taskname-service" "x" "y"
      testTask.networks ["tag1", "tag2"] [checkC1, checkC2, checkC3old] [checkC1, checkC2, checkC3new]
      checkC3old (by decide)).2.1 (by decide) (by decide),
    (check_identity_by_declaration true 6 "allocid" "taskname" "taskname-service" "x" "y"
      testTask.networks ["tag1", "tag2"] [checkC1, checkC2, checkC3old] [checkC1, checkC2, checkC3new]
      checkC3new (by decide)).2.2 (by decide) (by decide)⟩

end Nomad
